import Mathlib

/-!
Verification development for the harvest-transformer catalogue transformation
service.  The Python sources are shallowly embedded: JSON documents become an
inductive `Json` value, Python strings become `List Char` with the CPython
semantics of `replace`, `split`, `strip`, `urllib.parse.urlsplit` /
`urlparse` / `urljoin` reimplemented, and code that can raise an uncaught
exception returns `Except Unit` / `Option`.  External collaborators with I/O
(the CWL fetch, the S3 patch store, the license mirror) are passed in as
oracle parameters so that every definition stays executable.
-/

namespace HarvestTransformer

/-- A JSON value as manipulated by the Python code.  Python `None` and JSON
`null` are identified (`json.dumps(None) == "null"`).  Numbers are modelled
as integers; no claim in this development depends on non-integral numerics.
Objects are association lists in insertion order, mirroring Python dicts
(keys are unique in every value the code builds). -/
inductive Json where
  | null : Json
  | bool (b : Bool) : Json
  | num (n : Int) : Json
  | str (s : String) : Json
  | arr (xs : List Json) : Json
  | obj (fs : List (String × Json)) : Json
  deriving Repr

mutual

/-- Decidable equality on `Json` (written by hand: automatic derivation does
not support this nested inductive). -/
def jsonDecEq : (a b : Json) → Decidable (a = b)
  | .null, .null => isTrue rfl
  | .bool a, .bool b =>
      if h : a = b then isTrue (by rw [h]) else isFalse (fun hh => h (Json.bool.inj hh))
  | .num a, .num b =>
      if h : a = b then isTrue (by rw [h]) else isFalse (fun hh => h (Json.num.inj hh))
  | .str a, .str b =>
      if h : a = b then isTrue (by rw [h]) else isFalse (fun hh => h (Json.str.inj hh))
  | .arr xs, .arr ys =>
      match jsonDecEqList xs ys with
      | isTrue h => isTrue (by rw [h])
      | isFalse h => isFalse (fun hh => h (Json.arr.inj hh))
  | .obj fs, .obj gs =>
      match jsonDecEqFields fs gs with
      | isTrue h => isTrue (by rw [h])
      | isFalse h => isFalse (fun hh => h (Json.obj.inj hh))
  | .null, .bool _ => isFalse (fun h => Json.noConfusion h)
  | .null, .num _ => isFalse (fun h => Json.noConfusion h)
  | .null, .str _ => isFalse (fun h => Json.noConfusion h)
  | .null, .arr _ => isFalse (fun h => Json.noConfusion h)
  | .null, .obj _ => isFalse (fun h => Json.noConfusion h)
  | .bool _, .null => isFalse (fun h => Json.noConfusion h)
  | .bool _, .num _ => isFalse (fun h => Json.noConfusion h)
  | .bool _, .str _ => isFalse (fun h => Json.noConfusion h)
  | .bool _, .arr _ => isFalse (fun h => Json.noConfusion h)
  | .bool _, .obj _ => isFalse (fun h => Json.noConfusion h)
  | .num _, .null => isFalse (fun h => Json.noConfusion h)
  | .num _, .bool _ => isFalse (fun h => Json.noConfusion h)
  | .num _, .str _ => isFalse (fun h => Json.noConfusion h)
  | .num _, .arr _ => isFalse (fun h => Json.noConfusion h)
  | .num _, .obj _ => isFalse (fun h => Json.noConfusion h)
  | .str _, .null => isFalse (fun h => Json.noConfusion h)
  | .str _, .bool _ => isFalse (fun h => Json.noConfusion h)
  | .str _, .num _ => isFalse (fun h => Json.noConfusion h)
  | .str _, .arr _ => isFalse (fun h => Json.noConfusion h)
  | .str _, .obj _ => isFalse (fun h => Json.noConfusion h)
  | .arr _, .null => isFalse (fun h => Json.noConfusion h)
  | .arr _, .bool _ => isFalse (fun h => Json.noConfusion h)
  | .arr _, .num _ => isFalse (fun h => Json.noConfusion h)
  | .arr _, .str _ => isFalse (fun h => Json.noConfusion h)
  | .arr _, .obj _ => isFalse (fun h => Json.noConfusion h)
  | .obj _, .null => isFalse (fun h => Json.noConfusion h)
  | .obj _, .bool _ => isFalse (fun h => Json.noConfusion h)
  | .obj _, .num _ => isFalse (fun h => Json.noConfusion h)
  | .obj _, .str _ => isFalse (fun h => Json.noConfusion h)
  | .obj _, .arr _ => isFalse (fun h => Json.noConfusion h)

/-- Decidable equality on lists of `Json`. -/
def jsonDecEqList : (xs ys : List Json) → Decidable (xs = ys)
  | [], [] => isTrue rfl
  | [], _ :: _ => isFalse (fun h => List.noConfusion h)
  | _ :: _, [] => isFalse (fun h => List.noConfusion h)
  | x :: xs, y :: ys =>
      match jsonDecEq x y with
      | isFalse h => isFalse (fun hh => h (List.head_eq_of_cons_eq hh))
      | isTrue h1 =>
        match jsonDecEqList xs ys with
        | isTrue h2 => isTrue (by rw [h1, h2])
        | isFalse h => isFalse (fun hh => h (List.tail_eq_of_cons_eq hh))

/-- Decidable equality on `Json` object field lists. -/
def jsonDecEqFields : (fs gs : List (String × Json)) → Decidable (fs = gs)
  | [], [] => isTrue rfl
  | [], _ :: _ => isFalse (fun h => List.noConfusion h)
  | _ :: _, [] => isFalse (fun h => List.noConfusion h)
  | (k, v) :: fs, (k', v') :: gs =>
      if hk : k = k' then
        match jsonDecEq v v' with
        | isFalse h =>
            isFalse (fun hh => h (congrArg Prod.snd (List.head_eq_of_cons_eq hh)))
        | isTrue h1 =>
          match jsonDecEqFields fs gs with
          | isTrue h2 => isTrue (by rw [hk, h1, h2])
          | isFalse h => isFalse (fun hh => h (List.tail_eq_of_cons_eq hh))
      else
        isFalse (fun hh => hk (congrArg Prod.fst (List.head_eq_of_cons_eq hh)))

end

instance : DecidableEq Json := jsonDecEq

/-- Decidable equality for `Except` results (used to evaluate the embedded
functions inside closed statements). -/
instance {ε α : Type} [DecidableEq ε] [DecidableEq α] :
    DecidableEq (Except ε α) := fun a b =>
  match a, b with
  | .ok x, .ok y =>
      if h : x = y then isTrue (by rw [h])
      else isFalse (fun hh => h (by cases hh; rfl))
  | .error x, .error y =>
      if h : x = y then isTrue (by rw [h])
      else isFalse (fun hh => h (by cases hh; rfl))
  | .ok _, .error _ => isFalse (fun hh => Except.noConfusion hh)
  | .error _, .ok _ => isFalse (fun hh => Except.noConfusion hh)

/-- Python dict lookup (first matching key; keys are unique in practice). -/
def objLookup : List (String × Json) → String → Option Json
  | [], _ => none
  | (k, v) :: rest, key => if k = key then some v else objLookup rest key

/-- `d.get(key)` on a JSON object; `none` elsewhere is not modelled here
(callers match on the constructor first, as the Python code's guards do). -/
def jGet : Json → String → Option Json
  | .obj fs, key => objLookup fs key
  | _, _ => none

/-- Python dict assignment `d[k] = v`: replaces the value in place if the key
exists, otherwise appends the new key at the end (dict insertion order). -/
def setFields : List (String × Json) → String → Json → List (String × Json)
  | [], k, v => [(k, v)]
  | (k', v') :: rest, k, v =>
      if k' = k then (k, v) :: rest else (k', v') :: setFields rest k v

/-- Python `d.pop(k, None)`: removes the key if present. -/
def eraseField : List (String × Json) → String → List (String × Json)
  | [], _ => []
  | (k', v') :: rest, k => if k' = k then rest else (k', v') :: eraseField rest k

/-- Python truthiness of a JSON value (`None`, `False`, `0`, `""`, `[]`
and the empty dict are falsy). -/
def truthy : Json → Bool
  | .null => false
  | .bool b => b
  | .num n => n != 0
  | .str s => s != ""
  | .arr xs => !xs.isEmpty
  | .obj fs => !fs.isEmpty

/-! ## Python string primitives (`List Char` level) -/

/-- Python `s.startswith(pre)`. -/
def pyStartswith (s pre : List Char) : Bool := pre.isPrefixOf s

/-- Python `s.endswith(suf)`. -/
def pyEndswith (s suf : List Char) : Bool := suf.isSuffixOf s

/-- Python `needle in hay` (substring containment; the empty needle is
contained in everything). -/
def pyContains : List Char → List Char → Bool
  | hay, needle =>
    if needle.isPrefixOf hay then true
    else match hay with
      | [] => false
      | _ :: t => pyContains t needle

/-- Worker for `pyReplaceAll` with a non-empty pattern `o :: os`.  The fuel
counter (always initialized to the subject's length, which every step
strictly consumes) keeps the recursion structural so the kernel can
evaluate it. -/
def pyReplaceAllGo (o : Char) (os new : List Char) : Nat → List Char → List Char
  | 0, l => l
  | _ + 1, [] => []
  | fuel + 1, c :: rest =>
    if (o :: os).isPrefixOf (c :: rest) then
      new ++ pyReplaceAllGo o os new fuel (rest.drop os.length)
    else
      c :: pyReplaceAllGo o os new fuel rest

/-- Python `s.replace(old, new)` (all occurrences, left-to-right single pass;
an empty pattern inserts `new` at every gap including both ends). -/
def pyReplaceAll (s old new : List Char) : List Char :=
  match old with
  | [] => new ++ s.flatMap (fun c => c :: new)
  | o :: os => pyReplaceAllGo o os new s.length s

/-- Worker for `pyReplaceFirst` with a non-empty pattern. -/
def pyReplaceFirstGo (o : Char) (os new : List Char) : List Char → List Char
  | [] => []
  | c :: rest =>
    if (o :: os).isPrefixOf (c :: rest) then
      new ++ rest.drop os.length
    else
      c :: pyReplaceFirstGo o os new rest

/-- Python `s.replace(old, new, 1)` (first occurrence only; an empty pattern
prepends `new`). -/
def pyReplaceFirst (s old new : List Char) : List Char :=
  match old with
  | [] => new ++ s
  | o :: os => pyReplaceFirstGo o os new s

/-- Python `s.lstrip(chars)` for a character set. -/
def pyLstripSet (s : List Char) (cs : List Char) : List Char :=
  s.dropWhile (fun c => cs.contains c)

/-- Python `s.rstrip(chars)` for a character set. -/
def pyRstripSet (s : List Char) (cs : List Char) : List Char :=
  (s.reverse.dropWhile (fun c => cs.contains c)).reverse

/-- Python `s.strip(chars)` for a character set. -/
def pyStripSet (s : List Char) (cs : List Char) : List Char :=
  pyRstripSet (pyLstripSet s cs) cs

/-- Python `s.split(sep)` for a single separator character (keeps empty
fields; splitting the empty string yields one empty field). -/
def pySplitChar : List Char → Char → List (List Char)
  | [], _ => [[]]
  | c :: rest, sep =>
    let r := pySplitChar rest sep
    if c = sep then [] :: r else (c :: r.headI) :: r.tail

/-- Python `s.split(sep, 1)` restricted to what the code needs: the part
before the first occurrence of `sep` and, if `sep` occurs, the part after. -/
def pySplitOnce : List Char → Char → List Char × Option (List Char)
  | [], _ => ([], none)
  | c :: rest, sep =>
    if c = sep then ([], some rest)
    else
      let r := pySplitOnce rest sep
      (c :: r.1, r.2)

/-- Python `"sep".join(parts)` for a single-character separator. -/
def pyJoinChar (sep : Char) : List (List Char) → List Char
  | [] => []
  | [p] => p
  | p :: rest => p ++ sep :: pyJoinChar sep rest

/-- Head of `s.rsplit(sep, 2)`: the string with at most its last two
`sep`-separated components split off. -/
def pyRsplit2Head (s : List Char) (sep : Char) : List Char :=
  let parts := pySplitChar s sep
  let n := parts.length
  let k := min 2 (n - 1)
  pyJoinChar sep (parts.take (n - k))

/-- Python `s.lower()` (ASCII-faithful). -/
def pyLower (s : List Char) : List Char := s.map Char.toLower

/-! ### `String`-level wrappers (the embedded code manipulates `String`s) -/

def pyStartswithS (s pre : String) : Bool := pyStartswith s.data pre.data
def pyEndswithS (s suf : String) : Bool := pyEndswith s.data suf.data
def pyContainsS (hay needle : String) : Bool := pyContains hay.data needle.data
def pyReplaceAllS (s old new : String) : String :=
  ⟨pyReplaceAll s.data old.data new.data⟩
def pyReplaceFirstS (s old new : String) : String :=
  ⟨pyReplaceFirst s.data old.data new.data⟩
def pyRstripSlashS (s : String) : String := ⟨pyRstripSet s.data ['/']⟩
def pyStripSlashS (s : String) : String := ⟨pyStripSet s.data ['/']⟩
def pyRsplit2HeadS (s : String) (sep : Char) : String := ⟨pyRsplit2Head s.data sep⟩

/-! ## `urllib.parse` (CPython semantics)

`urlsplit`, `urlparse`, `urlunsplit`, `urlunparse` and `urljoin` are ported
from CPython.  The one modelled deviation: a bracketed host (`[...]` IPv6 or
IPvFuture literal) is always treated as a parse failure, whereas CPython
accepts syntactically valid bracketed hosts; no URL handled by this service
uses bracketed hosts.  The non-ASCII NFKC netloc check is omitted (ASCII
inputs are unaffected). -/

/-- Components returned by `urlsplit`. -/
structure UrlSplitResult where
  scheme : List Char
  netloc : List Char
  path : List Char
  query : List Char
  fragment : List Char
  deriving DecidableEq, Repr

/-- Components returned by `urlparse` (adds `params`). -/
structure UrlParseResult where
  scheme : List Char
  netloc : List Char
  path : List Char
  params : List Char
  query : List Char
  fragment : List Char
  deriving DecidableEq, Repr

/-- CPython `uses_relative`. -/
def usesRelative : List String :=
  ["", "ftp", "http", "gopher", "nntp", "imap", "wais", "file", "https",
   "shttp", "mms", "prospero", "rtsp", "rtsps", "rtspu", "sftp", "svn",
   "svn+ssh", "ws", "wss"]

/-- CPython `uses_netloc`. -/
def usesNetloc : List String :=
  ["", "ftp", "http", "gopher", "nntp", "telnet", "imap", "wais", "file",
   "mms", "https", "shttp", "snews", "prospero", "rtsp", "rtsps", "rtspu",
   "rsync", "svn", "svn+ssh", "sftp", "nfs", "git", "git+ssh", "ws", "wss"]

/-- CPython `uses_params`. -/
def usesParams : List String :=
  ["", "ftp", "hdl", "prospero", "http", "imap", "https", "shttp", "rtsp",
   "rtsps", "rtspu", "sip", "sips", "mms", "sftp", "tel"]

/-- CPython `scheme_chars` membership. -/
def isSchemeChar (c : Char) : Bool :=
  c.isAlpha || c.isDigit || c = '+' || c = '-' || c = '.'

/-- `url.lstrip(_WHATWG_C0_CONTROL_OR_SPACE)` followed by removal of the
unsafe bytes tab, carriage return and newline. -/
def pyUrlScrub (s : List Char) : List Char :=
  (s.dropWhile (fun c => c.toNat ≤ 0x20)).filter
    (fun c => !(c = '\t' || c = '\r' || c = '\n'))

/-- The same scrub applied to the default-scheme argument (stripped on both
sides). -/
def pyUrlScrubScheme (s : List Char) : List Char :=
  (pyStripSet s (("\t\r\n".data) ++ (List.range 0x21).map Char.ofNat)).filter
    (fun c => !(c = '\t' || c = '\r' || c = '\n'))

/-- CPython `_splitnetloc(url, 2)` applied to the text after the leading
`//`: the netloc runs up to the first of `/`, `?` or `#`. -/
def splitNetloc (s : List Char) : List Char × List Char :=
  let netloc := s.takeWhile (fun c => !(c = '/' || c = '?' || c = '#'))
  (netloc, s.drop netloc.length)

/-- CPython `urlsplit(url, scheme, allow_fragments)`.  `none` models the
`ValueError` raised for a malformed (or, in this model, any) bracketed
host. -/
def pyUrlsplit (url0 scheme0 : List Char) (af : Bool) : Option UrlSplitResult :=
  let url1 := pyUrlScrub url0
  let dscheme := pyUrlScrubScheme scheme0
  let (scheme, url2) :=
    match pySplitOnce url1 ':' with
    | (before, some after) =>
        if before ≠ [] ∧ (match url1.head? with
            | some c => c.isAlpha
            | none => false) = true ∧ before.all isSchemeChar then
          (pyLower before, after)
        else (dscheme, url1)
    | (_, none) => (dscheme, url1)
  let (netloc, url3) :=
    if pyStartswith url2 ['/', '/'] then splitNetloc (url2.drop 2)
    else ([], url2)
  if netloc.contains '[' || netloc.contains ']' then none
  else
    let (url4, fragment) :=
      if af ∧ url3.contains '#' then
        match pySplitOnce url3 '#' with
        | (before, some after) => (before, after)
        | (before, none) => (before, [])
      else (url3, [])
    let (url5, query) :=
      if url4.contains '?' then
        match pySplitOnce url4 '?' with
        | (before, some after) => (before, after)
        | (before, none) => (before, [])
      else (url4, [])
    some ⟨scheme, netloc, url5, query, fragment⟩

/-- CPython `_splitparams`. -/
def pySplitparams (url : List Char) : List Char × List Char :=
  if url.contains '/' then
    let restRev := url.reverse.takeWhile (· ≠ '/')
    let rest := restRev.reverse
    let preLen := url.length - rest.length
    match pySplitOnce rest ';' with
    | (_, none) => (url, [])
    | (before, some after) => (url.take preLen ++ before, after)
  else
    match pySplitOnce url ';' with
    | (_, none) => (url, [])
    | (before, some after) => (before, after)

/-- CPython `urlparse(url, scheme, allow_fragments)`. -/
def pyUrlparse (url0 scheme0 : List Char) (af : Bool) : Option UrlParseResult := do
  let u ← pyUrlsplit url0 scheme0 af
  if (⟨u.scheme⟩ : String) ∈ usesParams ∧ u.path.contains ';' then
    let (p, params) := pySplitparams u.path
    some ⟨u.scheme, u.netloc, p, params, u.query, u.fragment⟩
  else
    some ⟨u.scheme, u.netloc, u.path, [], u.query, u.fragment⟩

/-- CPython `urlunsplit`. -/
def pyUrlunsplit (scheme netloc url query fragment : List Char) : List Char :=
  let url1 :=
    if netloc ≠ [] ∨ (url ≠ [] ∧ pyStartswith url ['/', '/']) then
      let u := if url ≠ [] ∧ url.head? ≠ some '/' then '/' :: url else url
      '/' :: '/' :: (netloc ++ u)
    else url
  let url2 := if scheme ≠ [] then scheme ++ ':' :: url1 else url1
  let url3 := if query ≠ [] then url2 ++ '?' :: query else url2
  if fragment ≠ [] then url3 ++ '#' :: fragment else url3

/-- CPython `urlunparse`. -/
def pyUrlunparse (scheme netloc url params query fragment : List Char) :
    List Char :=
  let url1 := if params ≠ [] then url ++ ';' :: params else url
  pyUrlunsplit scheme netloc url1 query fragment

/-- One step of CPython's `urljoin` segment resolution (the running stack is
kept reversed; `..` pops, ignoring underflow, `.` is skipped). -/
def segResolve : List (List Char) → List (List Char) → List (List Char)
  | stack, [] => stack.reverse
  | stack, s :: rest =>
      if s = ['.', '.'] then segResolve stack.tail rest
      else if s = ['.'] then segResolve stack rest
      else segResolve (s :: stack) rest

/-- CPython's `segments[1:-1] = filter(None, segments[1:-1])`. -/
def filterMiddle : List (List Char) → List (List Char)
  | [] => []
  | [x] => [x]
  | x :: y :: rest =>
      x :: (((y :: rest).dropLast).filter (· ≠ [])) ++ [(y :: rest).getLastD []]

/-- CPython `urljoin(base, url)` (with `allow_fragments=True`).  `none`
propagates a `ValueError` from URL parsing. -/
def pyUrljoinL (base url : List Char) : Option (List Char) :=
  if base = [] then some url
  else if url = [] then some base
  else do
    let b ← pyUrlparse base [] true
    let u ← pyUrlparse url b.scheme true
    if u.scheme ≠ b.scheme ∨ (⟨u.scheme⟩ : String) ∉ usesRelative then
      some url
    else if (⟨u.scheme⟩ : String) ∈ usesNetloc ∧ u.netloc ≠ [] then
      some (pyUrlunparse u.scheme u.netloc u.path u.params u.query u.fragment)
    else
      let netloc :=
        if (⟨u.scheme⟩ : String) ∈ usesNetloc then b.netloc else u.netloc
      if u.path = [] ∧ u.params = [] then
        let query := if u.query = [] then b.query else u.query
        some (pyUrlunparse u.scheme netloc b.path b.params query u.fragment)
      else
        let baseParts0 := pySplitChar b.path '/'
        let baseParts :=
          if baseParts0.getLastD [] ≠ [] then baseParts0.dropLast
          else baseParts0
        let segments :=
          if u.path.head? = some '/' then pySplitChar u.path '/'
          else filterMiddle (baseParts ++ pySplitChar u.path '/')
        let resolved := segResolve [] segments
        let resolved :=
          if segments.getLastD [] = ['.'] ∨ segments.getLastD [] = ['.', '.']
          then resolved ++ [[]] else resolved
        let joined := pyJoinChar '/' resolved
        let joined := if joined = [] then ['/'] else joined
        some (pyUrlunparse u.scheme netloc joined u.params u.query u.fragment)

/-- `urljoin` on `String`s. -/
def pyUrljoinS (base url : String) : Option String :=
  (pyUrljoinL base.data url.data).map (fun l => ⟨l⟩)

/-- `urlparse` on `String`s (default scheme empty, fragments allowed), as the
service code calls it. -/
def pyUrlparseS (url : String) : Option UrlParseResult :=
  pyUrlparse url.data [] true

/-! ## transformer.py -/

/-- `reformat_key` (transformer.py): removes every `/items` and
`/collections` substring occurrence (single left-to-right passes), strips one
trailing slash, and enforces a `.json` suffix. -/
def reformat_key (key : String) : String :=
  let k1 := pyReplaceAllS key "/items" ""
  let k2 := pyReplaceAllS k1 "/collections" ""
  let k3 := if pyEndswithS k2 "/" then (⟨k2.data.dropLast⟩ : String) else k2
  if pyEndswithS k3 ".json" then k3 else k3 ++ ".json"

/-- `transform_key` (transformer.py): strips one leading `git-harvester/`
occurrence, otherwise replaces the first occurrence of `source` by `target`,
then reformats. -/
def transform_key (file_name source target : String) : String :=
  let t := pyReplaceFirstS file_name "git-harvester/" ""
  let t2 := if t = file_name then pyReplaceFirstS file_name source target else t
  reformat_key t2

/-- `get_new_catalog_id_from_target` (transformer.py). -/
def get_new_catalog_id_from_target (target : String) : Option String :=
  let newId := (pySplitChar (pyRstripSlashS target).data '/').getLastD []
  if newId = [] then none else some ⟨newId⟩

/-- Loop of `is_this_root_catalog`: scans links, remembering the latest
`root` and `self` hrefs, stopping when both are truthy.  `Except.error`
models the uncaught `AttributeError` when a link is not a dict. -/
def catLinksScan : List Json → Json → Json → Except Unit (Json × Json)
  | [], r, s => .ok (r, s)
  | link :: rest, r, s =>
      match link with
      | .obj fs =>
          let rel := objLookup fs "rel"
          let r' := if rel = some (.str "root") then (objLookup fs "href").getD .null else r
          let s' := if rel ≠ some (.str "root") ∧ rel = some (.str "self") then
              (objLookup fs "href").getD .null else s
          if truthy r' ∧ truthy s' then .ok (r', s') else catLinksScan rest r' s'
      | _ => .error ()

/-- `is_this_root_catalog` (transformer.py): true when the first kept `root`
and `self` hrefs are truthy and equal.  Iterating a truthy non-list `links`
value raises (`Except.error`). -/
def is_this_root_catalog (fs : List (String × Json)) : Except Unit Bool :=
  let catLinks := (objLookup fs "links").getD Json.null
  if ¬ truthy catLinks then .ok false
  else match catLinks with
    | .arr ls => do
        let (r, s) ← catLinksScan ls .null .null
        if ¬ truthy r ∨ ¬ truthy s then .ok false else .ok (decide (r = s))
    | _ => .error ()

/-- `update_catalog_id` (transformer.py): for a root Catalog document,
overwrites `id` with the last path segment of `target` (when non-empty). -/
def update_catalog_id (entry : Json) (target : String) : Except Unit Json :=
  match entry with
  | .obj fs =>
      if (objLookup fs "type").getD .null ≠ .str "Catalog" then .ok entry
      else do
        let isRoot ← is_this_root_catalog fs
        if ¬ isRoot then .ok entry
        else match get_new_catalog_id_from_target target with
          | some nid => .ok (.obj (setFields fs "id" (.str nid)))
          | none => .ok entry
  | _ => .error ()

/-! ## The `jsonpatch` / `jsonpointer` libraries

`apply_patch` (transformer.py) delegates to the external `jsonpatch` library
and catches only `jsonpatch.JsonPatchException`.  The library is modelled
from its documented behaviour (jsonpatch 1.33 / jsonpointer 2.x): it applies
the operation list sequentially to a deep copy, so a failing operation never
leaks a partially patched document; `JsonPatchException` subclasses
(`InvalidJsonPatch`, `JsonPatchConflict`, `JsonPatchTestFailed`) are the
`patchExc` kind, while `jsonpointer.JsonPointerException` (and `TypeError`s)
escape `apply_patch` uncaught and are the `crash` kind. -/

/-- Error kinds escaping the patch library. -/
inductive PatchErrKind where
  | patchExc : PatchErrKind
  | crash : PatchErrKind
  deriving DecidableEq, Repr

/-- JSON-pointer token unescaping (`~1` then `~0`). -/
def ptrUnescape (p : List Char) : String :=
  ⟨pyReplaceAll (pyReplaceAll p "~1".data "/".data) "~0".data "~".data⟩

/-- Parses a JSON-pointer path operand into its reference tokens. -/
def parsePointer (path : Json) : Except PatchErrKind (List String) :=
  match path with
  | .str s =>
      if s = "" then .ok []
      else if ¬ pyStartswithS s "/" then .error .crash
      else .ok (((pySplitChar s.data '/').tail).map ptrUnescape)
  | _ => .error .patchExc

/-- RFC 6901 array index (`0` or a digit string without leading zero). -/
def parseArrayIndex (s : String) : Option Nat :=
  match s.data with
  | [] => none
  | ['0'] => some 0
  | c :: rest =>
      if c.isDigit ∧ c ≠ '0' ∧ rest.all Char.isDigit then
        some (s.data.foldl (fun a ch => a * 10 + (ch.toNat - 48)) 0)
      else none

/-- One JSON-pointer walk step (pointer failures are the `crash` kind). -/
def ptrWalk (doc : Json) (part : String) : Except PatchErrKind Json :=
  match doc with
  | .obj fs =>
      match objLookup fs part with
      | some v => .ok v
      | none => .error .crash
  | .arr xs =>
      if part = "-" then .error .crash
      else match parseArrayIndex part with
        | some i =>
          match xs.get? i with
          | some v => .ok v
          | none => .error .crash
        | none => .error .crash
  | _ => .error .crash

/-- Full pointer resolution. -/
def resolvePtr (doc : Json) (parts : List String) : Except PatchErrKind Json :=
  parts.foldlM ptrWalk doc

/-- Descends to the last pointer token's container and applies `f` there,
rebuilding the document along the walked path. -/
def modifyLast (f : Json → String → Except PatchErrKind Json) :
    Json → List String → Except PatchErrKind Json
  | _, [] => .error .crash
  | doc, [p] => f doc p
  | doc, p :: q :: rest =>
      match doc with
      | .obj fs =>
          match objLookup fs p with
          | some v => do
              let v' ← modifyLast f v (q :: rest)
              .ok (.obj (setFields fs p v'))
          | none => .error .crash
      | .arr xs =>
          match parseArrayIndex p with
          | some i =>
            match xs.get? i with
            | some v => do
                let v' ← modifyLast f v (q :: rest)
                .ok (.arr (xs.set i v'))
            | none => .error .crash
          | none => .error .crash
      | _ => .error .crash

/-- `add` at the final container. -/
def addAt (value : Json) (container : Json) (p : String) :
    Except PatchErrKind Json :=
  match container with
  | .obj fs => .ok (.obj (setFields fs p value))
  | .arr xs =>
      if p = "-" then .ok (.arr (xs ++ [value]))
      else match parseArrayIndex p with
        | some i =>
            if i > xs.length then .error .patchExc
            else .ok (.arr (xs.take i ++ value :: xs.drop i))
        | none => .error .crash
  | _ => .error .crash

/-- `remove` at the final container. -/
def removeAt (container : Json) (p : String) : Except PatchErrKind Json :=
  match container with
  | .obj fs =>
      if (objLookup fs p).isSome then .ok (.obj (eraseField fs p))
      else .error .patchExc
  | .arr xs =>
      if p = "-" then .error .crash
      else match parseArrayIndex p with
        | some i =>
            if i < xs.length then .ok (.arr (xs.eraseIdx i))
            else .error .patchExc
        | none => .error .crash
  | _ => .error .crash

/-- `replace` at the final container. -/
def replaceAt (value : Json) (container : Json) (p : String) :
    Except PatchErrKind Json :=
  match container with
  | .obj fs =>
      if (objLookup fs p).isSome then .ok (.obj (setFields fs p value))
      else .error .patchExc
  | .arr xs =>
      if p = "-" then .error .crash
      else match parseArrayIndex p with
        | some i =>
            if i < xs.length then .ok (.arr (xs.set i value))
            else .error .patchExc
        | none => .error .crash
  | _ => .error .crash

/-- `add` operation (path `""` replaces the whole document). -/
def applyAdd (doc value : Json) (parts : List String) :
    Except PatchErrKind Json :=
  match parts with
  | [] => .ok value
  | _ => modifyLast (addAt value) doc parts

/-- `remove` operation. -/
def applyRemove (doc : Json) (parts : List String) : Except PatchErrKind Json :=
  match parts with
  | [] =>
      match doc with
      | .obj _ => .error .patchExc
      | _ => .error .crash
  | _ => modifyLast removeAt doc parts

/-- `replace` operation. -/
def applyReplace (doc value : Json) (parts : List String) :
    Except PatchErrKind Json :=
  match parts with
  | [] => .ok value
  | _ => modifyLast (replaceAt value) doc parts

/-- `test` operation (pointer failures are caught and become
`JsonPatchTestFailed`). -/
def applyTest (doc value : Json) (parts : List String) :
    Except PatchErrKind Json :=
  match resolvePtr doc parts with
  | .error _ => .error .patchExc
  | .ok v => if v = value then .ok doc else .error .patchExc

/-- `move` operation: resolve the source value, forbid moving into one's own
children, then remove + add. -/
def applyMove (doc : Json) (fromParts toParts : List String) :
    Except PatchErrKind Json := do
  let value ← match resolvePtr doc fromParts with
    | .ok v => .ok v
    | .error _ => .error .patchExc
  if fromParts ≠ toParts ∧ fromParts.isPrefixOf toParts then .error .patchExc
  else do
    let d1 ← applyRemove doc fromParts
    applyAdd d1 value toParts

/-- `copy` operation. -/
def applyCopy (doc : Json) (fromParts toParts : List String) :
    Except PatchErrKind Json := do
  let value ← resolvePtr doc fromParts
  applyAdd doc value toParts

/-- One JSON-patch operation (`_get_operation`, then the operation body).
For a non-dict operation, `_get_operation` first evaluates
`'op' not in operation`: on a string that is a substring test, on a list an
element-membership test, and on any other value it raises an uncaught
`TypeError` (not iterable).  When the membership test fails the library
raises the caught `InvalidJsonPatch`; when it succeeds, the following
`operation['op']` indexing raises an uncaught `TypeError` on strings and
lists.  So `"nop"` (contains `op`) crashes while `"xyz"` is caught, and
`[Json.str "op"]` crashes while `[]` is caught. -/
def applyOp (doc : Json) (op : Json) : Except PatchErrKind Json :=
  match op with
  | .obj fs => do
      let opName ← match objLookup fs "op" with
        | some (.str s) => Except.ok s
        | some _ => Except.error PatchErrKind.patchExc
        | none => Except.error PatchErrKind.patchExc
      let pathJ ← match objLookup fs "path" with
        | some p => Except.ok p
        | none => Except.error PatchErrKind.patchExc
      let parts ← parsePointer pathJ
      match opName with
      | "add" =>
          match objLookup fs "value" with
          | some v => applyAdd doc v parts
          | none => .error .patchExc
      | "remove" => applyRemove doc parts
      | "replace" =>
          match objLookup fs "value" with
          | some v => applyReplace doc v parts
          | none => .error .patchExc
      | "test" =>
          match objLookup fs "value" with
          | some v => applyTest doc v parts
          | none => .error .patchExc
      | "move" =>
          match objLookup fs "from" with
          | some f => do
              let fp ← parsePointer f
              applyMove doc fp parts
          | none => .error .patchExc
      | "copy" =>
          match objLookup fs "from" with
          | some f => do
              let fp ← parsePointer f
              applyCopy doc fp parts
          | none => .error .patchExc
      | _ => .error .patchExc
  | .str s => if pyContainsS s "op" then .error .crash else .error .patchExc
  | .arr xs =>
      if (Json.str "op") ∈ xs then .error .crash else .error .patchExc
  | _ => .error .crash

/-- `jsonpatch.JsonPatch(ops).apply(doc)`: sequential application to a copy;
the partially patched intermediate is discarded on failure. -/
def jsonPatchApply (doc : Json) (ops : List Json) : Except PatchErrKind Json :=
  ops.foldlM applyOp doc

/-- `apply_patch` (transformer.py lines 181-189): catches only
`JsonPatchException` (returning the original document); any other exception
escapes (`none`). -/
def apply_patch (original patch : Json) : Option Json :=
  let opsE : Except PatchErrKind (List Json) :=
    match patch with
    | .arr xs => .ok xs
    | .obj fs => .ok (fs.map (fun kv => Json.str kv.1))
    | .str s => .ok (s.data.map (fun c => Json.str ⟨[c]⟩))
    | _ => .error .crash
  match opsE with
  | .error .patchExc => some original
  | .error .crash => none
  | .ok ops =>
      match jsonPatchApply original ops with
      | .ok d => some d
      | .error .patchExc => some original
      | .error .crash => none

/-! ## __main__.py: the polling loop's acknowledgement decision -/

/-- Message acknowledgement actions offered by the Pulsar consumer. -/
inductive AckAction where
  | acknowledge : AckAction
  | negativeAcknowledge : AckAction
  deriving DecidableEq, Repr

/-- Models the body of `main` (__main__.py lines 549-560): the processing of
one received message is attempted; on success the message is acknowledged,
and on any raised exception the handler logs the error and also acknowledges
("Message failed to be processed. Acknowledge to remove it.").  The input is
the outcome of `process_pulsar_message` (`Except.error` carries the raised
exception's message). -/
def mainAckDecision (result : Except String Unit) : AckAction :=
  match result with
  | .ok _ => .acknowledge
  | .error _ => .acknowledge

/-! ## workflow_processor.py -/

/-- Python membership test `key in v` for a JSON value: key lookup on dicts,
substring on strings, element equality on lists; `in` on other types raises
`TypeError`. -/
def pyInJ (key : String) (v : Json) : Except Unit Bool :=
  match v with
  | .obj fs => .ok (objLookup fs key).isSome
  | .str s => .ok (pyContainsS s key)
  | .arr xs => .ok (xs.any (fun x => decide (x = Json.str key)))
  | _ => .error ()

/-- Python indexing `v[key]` with a string key: dict lookup (KeyError when
missing); `TypeError` on every other type. -/
def pyIndexJ (v : Json) (key : String) : Except Unit Json :=
  match v with
  | .obj fs =>
      match objLookup fs key with
      | some x => .ok x
      | none => .error ()
  | _ => .error ()

/-- Canonical STAC Collection field order (workflow_processor.py). -/
def REQUIRED_COLLECTIONS_FIELDS : List String :=
  ["type", "stac_version", "stac_extensions", "id", "title", "description",
   "keywords", "license", "providers", "extent", "summaries", "links",
   "assets"]

/-- Default whole-Earth bounding box. -/
def defaultBbox : Json :=
  .arr [.arr [.num (-180), .num (-90), .num 180, .num 90]]

/-- Default `spatial` sub-object. -/
def defaultSpatial : Json := .obj [("bbox", defaultBbox)]

/-- Default unbounded `temporal` interval. -/
def defaultInterval : Json := .arr [.arr [.null, .null]]

/-- Default `temporal` sub-object. -/
def defaultTemporal : Json := .obj [("interval", defaultInterval)]

/-- `DEFAULT_EXTENT_FIELD` (workflow_processor.py). -/
def DEFAULT_EXTENT_FIELD : Json :=
  .obj [("spatial", defaultSpatial), ("temporal", defaultTemporal)]

/-- `DEFAULT_STAC_VERSION`. -/
def DEFAULT_STAC_VERSION : String := "1.0.0"

/-- `WorkflowProcessor.workflow_check_missing_fields`: the required fields
that are absent or falsy, with the extent/summaries sub-checks.  Errors model
the `TypeError`s raised by `in`/indexing on incompatible value shapes. -/
def workflowCheckMissingFields (fs : List (String × Json)) :
    Except Unit (List String) :=
  REQUIRED_COLLECTIONS_FIELDS.foldlM (fun acc field => do
    let presentTruthy := match objLookup fs field with
      | some v => truthy v
      | none => false
    if presentTruthy = false then pure (acc ++ [field])
    else if field = "extent" then do
      let ext := (objLookup fs "extent").getD .null
      let hasSp ← pyInJ "spatial" ext
      let acc1 ←
        if hasSp = false then pure (acc ++ ["spatial"])
        else do
          let sp ← pyIndexJ ext "spatial"
          let hasBbox ← pyInJ "bbox" sp
          pure (if hasBbox = false then acc ++ ["bbox"] else acc)
      let hasTemp ← pyInJ "temporal" ext
      if hasTemp = false then pure (acc1 ++ ["temporal"])
      else do
        let tmp ← pyIndexJ ext "temporal"
        let hasInt ← pyInJ "interval" tmp
        if hasInt = false then pure (acc1 ++ ["interval"])
        else do
          let iv ← pyIndexJ tmp "interval"
          pure (if truthy iv = false then acc1 ++ ["interval"] else acc1)
    else if field = "summaries" then do
      let sm := (objLookup fs "summaries").getD .null
      let hasIn ← pyInJ "inputs" sm
      let acc1 ←
        if hasIn = false then pure (acc ++ ["inputs"])
        else do
          let iv ← pyIndexJ sm "inputs"
          pure (if truthy iv = false then acc ++ ["inputs"] else acc)
      let hasOut ← pyInJ "outputs" sm
      if hasOut = false then pure (acc1 ++ ["outputs"])
      else do
        let ov ← pyIndexJ sm "outputs"
        pure (if truthy ov = false then acc1 ++ ["outputs"] else acc1)
    else pure acc) []

/-- Outcome of fetching the CWL script URL and YAML-parsing the response,
modelled as an oracle (the real code performs network I/O in
`get_file_from_url` followed by `yaml.safe_load`). -/
inductive CwlFetch where
  | parsed (cwl : Json) : CwlFetch
  | parserError : CwlFetch
  | fetchError : CwlFetch
  deriving Repr

/-- `scrape_cwl and key in node` for the located Workflow node. -/
def cwlNodeHas (scrape : Bool) (node : Json) (key : String) : Bool :=
  scrape && (match node with
    | .obj nf => (objLookup nf key).isSome
    | _ => false)

/-- Field access on the located Workflow node (guarded by `cwlNodeHas`). -/
def cwlNodeGet (node : Json) (key : String) : Json :=
  (jGet node key).getD .null

/-- Scan of `cwl_dict["$graph"]` for the first node with
`class == "Workflow"`.  `none` covers the loop's `else` clause and every
caught exception (all of which make `update_file` return `None`). -/
def findWorkflowScan : List Json → Option Json
  | [] => none
  | (Json.obj nf) :: rest =>
      match objLookup nf "class" with
      | some v =>
          if v = .str "Workflow" then some (.obj nf) else findWorkflowScan rest
      | none => none
  | _ :: _ => none

/-- Locating the Workflow node in the parsed CWL document; `none` means
`update_file` logs and returns `None`. -/
def findWorkflowNode (cwl : Json) : Option Json :=
  match cwl with
  | .obj cf =>
      match objLookup cf "$graph" with
      | some (.arr xs) => findWorkflowScan xs
      | _ => none
  | _ => none

/-- One iteration of the missing-field fill loop of
`WorkflowProcessor.update_file`. -/
def fillField (scrape : Bool) (node : Json) (uuid1 uuid2 : String)
    (fs : List (String × Json)) (field : String) :
    Except Unit (List (String × Json)) :=
  if field = "extent" then .ok (setFields fs "extent" DEFAULT_EXTENT_FIELD)
  else if field = "spatial" then
    match objLookup fs "extent" with
    | some (.obj ef) =>
        .ok (setFields fs "extent" (.obj (setFields ef "spatial" defaultSpatial)))
    | _ => .error ()
  else if field = "bbox" then
    match objLookup fs "extent" with
    | some (.obj ef) =>
        match objLookup ef "spatial" with
        | some (.obj sf) =>
            .ok (setFields fs "extent"
              (.obj (setFields ef "spatial" (.obj (setFields sf "bbox" defaultBbox)))))
        | _ => .error ()
    | _ => .error ()
  else if field = "temporal" then
    match objLookup fs "extent" with
    | some (.obj ef) =>
        .ok (setFields fs "extent" (.obj (setFields ef "temporal" defaultTemporal)))
    | _ => .error ()
  else if field = "interval" then
    match objLookup fs "extent" with
    | some (.obj ef) =>
        match objLookup ef "temporal" with
        | some (.obj tf) =>
            .ok (setFields fs "extent"
              (.obj (setFields ef "temporal" (.obj (setFields tf "interval" defaultInterval)))))
        | _ => .error ()
    | _ => .error ()
  else if field = "inputs" then
    if cwlNodeHas scrape node "inputs" then
      match objLookup fs "summaries" with
      | some (.obj sf) =>
          .ok (setFields fs "summaries"
            (.obj (setFields sf "inputs" (cwlNodeGet node "inputs"))))
      | _ => .error ()
    else .ok fs
  else if field = "outputs" then
    if cwlNodeHas scrape node "outputs" then
      match objLookup fs "summaries" with
      | some (.obj sf) =>
          .ok (setFields fs "summaries"
            (.obj (setFields sf "outputs" (cwlNodeGet node "outputs"))))
      | _ => .error ()
    else .ok fs
  else if field = "type" then .ok (setFields fs "type" (.str "Collection"))
  else if field = "id" then
    let idUuid : Json :=
      match objLookup fs "title" with
      | some t => if truthy t then t else .str ("workflow__" ++ uuid1)
      | none => .str ("workflow__" ++ uuid1)
    if cwlNodeHas scrape node "id" then
      match cwlNodeGet node "id" with
      | .str nid => .ok (setFields fs "id" (.str ("workflow__" ++ nid)))
      | _ => .error ()
    else .ok (setFields fs "id" idUuid)
  else if field = "title" then
    let titleUuid : Json :=
      match objLookup fs "id" with
      | some t => if truthy t then t else .str ("workflow__" ++ uuid2)
      | none => .str ("workflow__" ++ uuid2)
    if cwlNodeHas scrape node "id" then
      match cwlNodeGet node "id" with
      | .str nid => .ok (setFields fs "title" (.str ("workflow__" ++ nid)))
      | _ => .error ()
    else .ok (setFields fs "title" titleUuid)
  else if field = "stac_extensions" then
    .ok (setFields fs "stac_extensions" (.arr []))
  else if field = "stac_version" then
    .ok (setFields fs "stac_version" (.str DEFAULT_STAC_VERSION))
  else if field = "description" then
    .ok (setFields fs "description"
      (if cwlNodeHas scrape node "doc" then cwlNodeGet node "doc" else .str "N/A"))
  else if field = "license" then .ok (setFields fs "license" (.str "N/A"))
  else if field = "keywords" then
    .ok (setFields fs "keywords" (.arr [.str "workflow"]))
  else if field = "summaries" then
    let s0 : List (String × Json) := []
    let s1 :=
      if cwlNodeHas scrape node "inputs" then
        setFields s0 "inputs" (cwlNodeGet node "inputs")
      else s0
    let s2 :=
      if cwlNodeHas scrape node "outputs" then
        setFields s1 "outputs" (cwlNodeGet node "outputs")
      else s1
    .ok (setFields fs "summaries" (.obj s2))
  else if field = "links" then .ok (setFields fs "links" (.arr []))
  else .ok (setFields fs field (.str "N/A"))

/-- Rewrites the first `self` link's href to `source + file_name`
(`link["rel"]` raises on links without a `rel` key or non-dict links). -/
def fixSelfLinks (source file_name : String) : List Json → Except Unit (List Json)
  | [] => .ok []
  | l :: rest =>
      match l with
      | .obj lf =>
          match objLookup lf "rel" with
          | some r =>
              if r = .str "self" then
                .ok (.obj (setFields lf "href" (.str (source ++ file_name))) :: rest)
              else do
                let rest' ← fixSelfLinks source file_name rest
                .ok (.obj lf :: rest')
          | none => .error ()
      | _ => .error ()

/-- Intermediate CWL-scrape outcome inside `update_file`'s `try` block. -/
inductive ScrapeRes where
  | withCwl (c : Json) : ScrapeRes
  | noScrape : ScrapeRes
  | abortNull : ScrapeRes

/-- `WorkflowProcessor.update_file`.  `oracle` gives the fetch+parse outcome
for the CWL href; `uuid1`/`uuid2` are the two `uuid.uuid4()` draws.  The
result is the updated document, `Json.null` for Python's bare `return`
(parse error or missing Workflow node), or `Except.error` for an uncaught
exception. -/
def workflowUpdateFile (oracle : String → CwlFetch) (uuid1 uuid2 : String)
    (file_name source : String) (file_json : Json) : Except Unit Json := do
  let hasAssets ← pyInJ "assets" file_json
  if hasAssets = false then .ok file_json
  else do
    let assets ← pyIndexJ file_json "assets"
    let hasCwl ← pyInJ "cwl_script" assets
    if hasCwl = false then .ok file_json
    else do
      let fs ← match file_json with
        | .obj fs => Except.ok fs
        | _ => Except.error ()
      let scrapeRes : ScrapeRes :=
        match assets with
        | .obj asf =>
            match objLookup asf "cwl_script" with
            | some (.obj csf) =>
                match objLookup csf "href" with
                | some (.str h) =>
                    match oracle h with
                    | .parsed c => .withCwl c
                    | .parserError => .abortNull
                    | .fetchError => .noScrape
                | _ => .noScrape
            | _ => .noScrape
        | _ => .noScrape
      match scrapeRes with
      | .abortNull => .ok Json.null
      | other => do
        let missing ← workflowCheckMissingFields fs
        let nodeRes : Option (Bool × Json) :=
          match other with
          | .withCwl c =>
              match findWorkflowNode c with
              | some node => some (true, node)
              | none => none
          | _ => some (false, Json.null)
        match nodeRes with
        | none => .ok Json.null
        | some (scrape, node) => do
          let fsFilled ← missing.foldlM (fillField scrape node uuid1 uuid2) fs
          let fsFixed ←
            match objLookup fsFilled "links" with
            | none => Except.ok fsFilled
            | some (.arr ls) => do
                let ls' ← fixSelfLinks source file_name ls
                Except.ok (setFields fsFilled "links" (.arr ls'))
            | some (.str s) => if s = "" then Except.ok fsFilled else Except.error ()
            | some (.obj o) => if o = [] then Except.ok fsFilled else Except.error ()
            | some _ => Except.error ()
          let ordered := REQUIRED_COLLECTIONS_FIELDS.filterMap
            (fun k => (objLookup fsFixed k).map (fun v => (k, v)))
          .ok (.obj ordered)

/-! ## link_processor.py -/

/-- `relations_to_rewrite` (link_processor.py line 116). -/
def relationsToRewrite : List String :=
  ["child", "collection", "item", "items", "parent", "root", "self"]

/-- `relations_to_remove` (link_processor.py lines 118-127; the odd
single-slash opengis entry is copied from the source verbatim). -/
def relationsToRemove : List String :=
  ["aggregate", "aggregations", "queryables",
   "http:/www.opengis.net/def/rel/ogc/1.0/queryables", "search",
   "service-desc", "service-doc", "conformance"]

/-- `LinkProcessor.is_valid_path`: any truthy (non-empty) path passes the
first test, and the empty path makes `all([])` vacuously true, so this
check accepts every path (the empty-segment branch is unreachable dead
code). -/
def lpIsValidPath (p : List Char) : Bool :=
  if p ≠ [] ∨ p = "/".data then true
  else ((pySplitChar p '/').drop 1).dropLast.all (fun seg => !seg.isEmpty)

/-- `LinkProcessor.is_valid_url`: scheme must be `http`/`https`, netloc
non-empty, path accepted by `is_valid_path` (always); `ValueError` from
`urlparse` is caught and yields `false`. -/
def lpIsValidUrl (url : String) : Bool :=
  match pyUrlparseS url with
  | none => false
  | some r =>
      (decide (r.scheme = "http".data) || decide (r.scheme = "https".data))
        && !r.netloc.isEmpty && lpIsValidPath r.path

/-- `LinkProcessor.replace_url_location` for a string url: with an empty
`source` the url is resolved against `target` by `urljoin`, otherwise the
first occurrence of the slash-stripped `source` is replaced by the
slash-stripped `target`. -/
def replaceUrlLocation (url source target : String) : Option String :=
  if source = "" then pyUrljoinS target url
  else some (pyReplaceFirstS url (pyRstripSlashS source) (pyRstripSlashS target))

/-- `replace_url_location(self_link, source, target_location)` where the
extracted self link may be any JSON value (`link.get("href")` can return
`None`): a non-string url raises under a non-empty `source`
(`None.replace`), while under an empty `source` `urljoin(target, url)`
returns `target` for a falsy url (raising only when `target` is empty,
because the returned non-string then flows into `urlparse`), and raises for
a truthy non-string url. -/
def computeOutputSelf (href : Json) (source target : String) :
    Except Unit String :=
  if source = "" then
    match href with
    | .str u =>
        match pyUrljoinS target u with
        | some r => .ok r
        | none => .error ()
    | v =>
        if truthy v then .error ()
        else if target = "" then .error () else .ok target
  else
    match href with
    | .str u =>
        .ok (pyReplaceFirstS u (pyRstripSlashS source) (pyRstripSlashS target))
    | _ => .error ()

/-- `rel in <list of relation names>` (a non-string rel never equals a
string). -/
def relInList (rel : Json) (rels : List String) : Bool :=
  match rel with
  | .str s => rels.contains s
  | _ => false

/-- Per-link policy decision of `LinkProcessor.rewrite_links`. -/
inductive LinkDecision where
  | drop : LinkDecision
  | keepOrig : LinkDecision
  | keepHref (newHref : String) : LinkDecision
  deriving DecidableEq, Repr

/-- The decision taken by one iteration of the `rewrite_links` loop for one
yielded link.  `Except.error` models the uncaught exceptions: `link.get` on
a non-dict, `startswith` on a non-string href, a `ValueError` from
`urlparse`, or a `ValueError` inside `urljoin`. -/
def linkDecide (source targetLocation outputSelf outputRoot : String)
    (link : Json) : Except Unit LinkDecision :=
  match link with
  | .obj lf =>
      let relJ := (objLookup lf "rel").getD .null
      match (objLookup lf "href").getD .null with
      | .str href =>
          if pyStartswithS href outputRoot then .ok .keepOrig
          else
            match pyUrlparseS href with
            | none => .error ()
            | some parsed =>
                if relInList relJ relationsToRewrite then
                  if pyStartswithS href source then
                    if pyContainsS href targetLocation = false then
                      match replaceUrlLocation href source targetLocation with
                      | some nh => .ok (.keepHref nh)
                      | none => .error ()
                    else .ok .keepOrig
                  else if relJ = .str "parent" then
                    .ok (.keepHref (pyRsplit2HeadS outputSelf '/'))
                  else if pyStartswithS href (pyStripSlashS outputRoot) then
                    .ok .keepOrig
                  else if parsed.scheme = [] ∧ parsed.netloc = [] then
                    match pyUrljoinS outputSelf href with
                    | some nh => .ok (.keepHref nh)
                    | none => .error ()
                  else .ok .drop
                else if relInList relJ relationsToRemove then .ok .drop
                else .ok .keepOrig
      | _ => .error ()
  | _ => .error ()

/-- Elements yielded by `yield from node["links"]`: array elements; an empty
string or empty dict yields nothing; a non-empty string or dict yields
scalar items that make the rewrite loop raise; other types raise
`TypeError` at the `yield from` itself. -/
def linksElems : Json → Except Unit (List Json)
  | .arr xs => .ok xs
  | .str s => if s = "" then .ok [] else .error ()
  | .obj fs => if fs = [] then .ok [] else .error ()
  | _ => .error ()

mutual

/-- `LinkProcessor.find_all_links`: for a dict, first the elements of its
`links` key, then the recursive contributions of all values in order; for a
list, the element contributions in order. -/
def findAllLinksE : Json → Except Unit (List Json)
  | .arr xs => findAllLinksList xs
  | .obj fs => do
      let head ← match objLookup fs "links" with
        | some v => linksElems v
        | none => Except.ok []
      let rest ← findAllLinksFields fs
      Except.ok (head ++ rest)
  | _ => .ok []

/-- `find_all_links` over list elements. -/
def findAllLinksList : List Json → Except Unit (List Json)
  | [] => .ok []
  | x :: rest => do
      let a ← findAllLinksE x
      let b ← findAllLinksList rest
      Except.ok (a ++ b)

/-- `find_all_links` over a dict's values (in insertion order). -/
def findAllLinksFields : List (String × Json) → Except Unit (List Json)
  | [] => .ok []
  | (_, v) :: rest => do
      let a ← findAllLinksE v
      let b ← findAllLinksFields rest
      Except.ok (a ++ b)

end

mutual

/-- The in-place href mutations of `rewrite_links` applied to a subtree: the
loop mutates every link dict reachable through any `links` array; dropped
links are left as they are and removed only from the top-level list. -/
def mutateTree (source tl os oroot : String) : Json → Json
  | .arr xs => .arr (mutateList source tl os oroot xs)
  | .obj fs => .obj (mutateFields source tl os oroot fs)
  | x => x

/-- `mutateTree` over list elements. -/
def mutateList (source tl os oroot : String) : List Json → List Json
  | [] => []
  | x :: rest =>
      mutateTree source tl os oroot x :: mutateList source tl os oroot rest

/-- `mutateTree` over dict fields; a `links` value receives the per-link
mutation on its elements. -/
def mutateFields (source tl os oroot : String) :
    List (String × Json) → List (String × Json)
  | [] => []
  | (k, v) :: rest =>
      (k, if k = "links" then mutateLinksVal source tl os oroot v
          else mutateTree source tl os oroot v)
        :: mutateFields source tl os oroot rest

/-- Mutation of a `links` value: each array element is a yielded link; other
shapes are only traversed (their yields never reach a kept state). -/
def mutateLinksVal (source tl os oroot : String) : Json → Json
  | .arr xs => .arr (mutateLinkElems source tl os oroot xs)
  | v => mutateTree source tl os oroot v

/-- Per-element mutation of a `links` array. -/
def mutateLinkElems (source tl os oroot : String) : List Json → List Json
  | [] => []
  | e :: rest =>
      linkMutate source tl os oroot e :: mutateLinkElems source tl os oroot rest

/-- The final value of one yielded link dict: nested links inside it are
also mutated, and a kept-with-rewrite decision updates its `href`. -/
def linkMutate (source tl os oroot : String) (e : Json) : Json :=
  match linkDecide source tl os oroot e with
  | .ok (.keepHref nh) =>
      match mutateTree source tl os oroot e with
      | .obj lf => .obj (setFields lf "href" (.str nh))
      | x => x
  | _ => mutateTree source tl os oroot e

end

/-- The `new_links` accumulation of the `rewrite_links` loop: dropped links
are skipped, kept links contribute their (shared, mutated) dict. -/
def collectKept (source tl os oroot : String) :
    List Json → Except Unit (List Json)
  | [] => .ok []
  | l :: rest => do
      match ← linkDecide source tl os oroot l with
      | .drop => collectKept source tl os oroot rest
      | _ => do
          let r ← collectKept source tl os oroot rest
          Except.ok (linkMutate source tl os oroot l :: r)

/-- `LinkProcessor.rewrite_links`: walks every yielded link, builds the
filtered `new_links`, mutates kept links in place, then assigns the result
to the top-level `links` key. -/
def rewriteLinks (source tl os oroot : String) (stacData : Json) :
    Except Unit Json := do
  let allLinks ← findAllLinksE stacData
  let newLinks ← collectKept source tl os oroot allLinks
  match mutateTree source tl os oroot stacData with
  | .obj fs => .ok (.obj (setFields fs "links" (.arr newLinks)))
  | _ => .error ()

/-- The membership scan of `add_link_if_missing`'s list comprehension (it
evaluates `link.get("rel")` on every element, so a non-dict element raises
even after a match). -/
def linksHasRel : List Json → String → Except Unit Bool
  | [], _ => .ok false
  | (Json.obj lf) :: rest, rel => do
      let b ← linksHasRel rest rel
      Except.ok (decide ((objLookup lf "rel").getD .null = .str rel) || b)
  | _ :: _, _ => .error ()

/-- `LinkProcessor.add_link_if_missing`. -/
def addLinkIfMissing (rel href : String) (stac : Json) : Except Unit Json :=
  match stac with
  | .obj fs =>
      let newLink : Json := .obj [("rel", .str rel), ("href", .str href)]
      match objLookup fs "links" with
      | none => .ok (.obj (setFields fs "links" (.arr [newLink])))
      | some (.arr ls) => do
          let present ← linksHasRel ls rel
          if present then .ok stac
          else .ok (.obj (setFields fs "links" (.arr (ls ++ [newLink]))))
      | some _ => .error ()
  | _ => .error ()

/-- `LinkProcessor.add_missing_links` (root first, then self). -/
def addMissingLinks (stac : Json) (newRoot newSelf : String) :
    Except Unit Json := do
  let s1 ← addLinkIfMissing "root" newRoot stac
  addLinkIfMissing "self" newSelf s1

/-- `LinkProcessor.add_license_link`: appends a typed license link
(`text/plain` for `.txt`, else `text/html`) to `setdefault("links", [])`. -/
def addLicenseLink (stac : Json) (href : String) : Except Unit Json :=
  match stac with
  | .obj fs =>
      let t : Json :=
        .str (if pyEndswithS href ".txt" then "text/plain" else "text/html")
      let newLink : Json :=
        .obj [("rel", .str "license"), ("href", .str href), ("type", t)]
      match objLookup fs "links" with
      | none => .ok (.obj (setFields fs "links" (.arr [newLink])))
      | some (.arr ls) => .ok (.obj (setFields fs "links" (.arr (ls ++ [newLink]))))
      | some _ => .error ()
  | _ => .error ()

/-- The short-circuiting `any(link.get("href") == url for link in links)`. -/
def linksAnyHref : List Json → String → Except Unit Bool
  | [], _ => .ok false
  | (Json.obj lf) :: rest, href =>
      if (objLookup lf "href").getD .null = .str href then .ok true
      else linksAnyHref rest href
  | _ :: _, _ => .error ()

/-- Lookup in the SPDX licence-code dictionary. -/
def lookupStr : List (String × String) → String → Option String
  | [], _ => none
  | (k, v) :: rest, key => if k = key then some v else lookupStr rest key

/-- Python `casefold` (ASCII-faithful lowering). -/
def pyLowerS (s : String) : String := ⟨pyLower s.data⟩

/-- The unrecognised-licence loop of `ensure_license_links`: every
`license`-relation link whose href is not already under the hosted zone is
rewritten to the mirror URL produced by `copy_license_to_eodh` (modelled by
the `copyLic` oracle, since the real method performs HTTP and S3 I/O). -/
def licLoop (hz workspace : String) (copyLic : String → String → String) :
    List Json → Except Unit (List Json)
  | [] => .ok []
  | (Json.obj lf) :: rest => do
      let lf' ←
        if (objLookup lf "rel").getD .null = .str "license" then
          match (objLookup lf "href").getD .null with
          | .str href =>
              if pyStartswithS href ("https://" ++ hz) = false then
                Except.ok (setFields lf "href" (.str (copyLic workspace href)))
              else Except.ok lf
          | _ => Except.error ()
        else Except.ok lf
      let rest' ← licLoop hz workspace copyLic rest
      Except.ok (Json.obj lf' :: rest')
  | _ :: _ => .error ()

/-- `LinkProcessor.ensure_license_links`.  The local `links` list aliases
the document's list when the key exists (so the second duplicate check sees
the first append) and is a stale fresh list otherwise. -/
def ensureLicenseLinks (spdx : List (String × String)) (hz spdxPath : String)
    (copyLic : String → String → String) (workspace : String) (stac : Json) :
    Except Unit Json :=
  match stac with
  | .obj fs =>
      let licenseField := (objLookup fs "license").getD .null
      if truthy licenseField = false then .ok stac
      else
        match licenseField with
        | .str lic =>
            match lookupStr spdx (pyLowerS lic) with
            | some found => do
                let baseUrl := "https://" ++ hz ++ "/" ++ spdxPath
                let textUrl ← match pyUrljoinS (baseUrl ++ "/text/") (found ++ ".txt") with
                  | some u => Except.ok u
                  | none => Except.error ()
                let htmlUrl ← match pyUrljoinS (baseUrl ++ "/html/") (found ++ ".html") with
                  | some u => Except.ok u
                  | none => Except.error ()
                let keyWasPresent := (objLookup fs "links").isSome
                let links0 ← match objLookup fs "links" with
                  | none => Except.ok ([] : List Json)
                  | some (.arr ls) => Except.ok ls
                  | some (.str s) => if s = "" then Except.ok [] else Except.error ()
                  | some (.obj o) => if o = [] then Except.ok [] else Except.error ()
                  | some _ => Except.error ()
                let has1 ← linksAnyHref links0 textUrl
                let s1 ← if has1 then Except.ok stac else addLicenseLink stac textUrl
                let links1 ←
                  if keyWasPresent then
                    match s1 with
                    | .obj fs1 =>
                        match objLookup fs1 "links" with
                        | some (.arr ls) => Except.ok ls
                        | some (.str s) => if s = "" then Except.ok [] else Except.error ()
                        | some (.obj o) => if o = [] then Except.ok [] else Except.error ()
                        | _ => Except.error ()
                    | _ => Except.error ()
                  else Except.ok links0
                let has2 ← linksAnyHref links1 htmlUrl
                if has2 then Except.ok s1 else addLicenseLink s1 htmlUrl
            | none =>
                match objLookup fs "links" with
                | none => .ok stac
                | some (.arr ls) => do
                    let ls' ← licLoop hz workspace copyLic ls
                    Except.ok (.obj (setFields fs "links" (.arr ls')))
                | some (.str s) => if s = "" then .ok stac else .error ()
                | some (.obj o) => if o = [] then .ok stac else .error ()
                | some _ => .error ()
        | _ => .error ()
  | _ => .error ()

/-- The scan behind the self-link extraction comprehension: the full list is
built before indexing, so every element's `get` is evaluated; a non-dict
element raises, the first `self` link's href wins. -/
def selfHrefScan : List Json → Except Unit (Option Json)
  | [] => .ok none
  | (Json.obj lf) :: rest => do
      let tailRes ← selfHrefScan rest
      if (objLookup lf "rel").getD .null = .str "self" then
        Except.ok (some ((objLookup lf "href").getD .null))
      else Except.ok tailRes
  | _ :: _ => .error ()

/-- The guarded self-link extraction
`[link.get("href") for link in entry_body.get("links") if ...][0]` inside
`try/except (TypeError, IndexError)`: `.ok (some h)` is a found href
(`Json.null` when the href key is missing), `.ok none` is a caught
`TypeError`/`IndexError`, `.error` an uncaught exception. -/
def extractFirstSelf (linksVal : Option Json) : Except Unit (Option Json) :=
  match linksVal with
  | none => .ok none
  | some .null => .ok none
  | some (.num _) => .ok none
  | some (.bool _) => .ok none
  | some (.str s) => if s = "" then .ok none else .error ()
  | some (.obj fs) => if fs = [] then .ok none else .error ()
  | some (.arr ls) => selfHrefScan ls

/-- The body of `LinkProcessor.update_file` after `delete_sections`
(link_processor.py lines 251-291), over the already-pruned field list.
Configuration mirrors the constructor state: the SPDX licence dictionary,
the hosted zone, the licence path, and the `copy_license_to_eodh` I/O
oracle.  A temporary self link is synthesized when none can be extracted,
the computed output self URL is validated (aborting the rewrite when
invalid), missing root/self links are added, licence links ensured and
the link graph rewritten. -/
def linkUpdateCore (spdx : List (String × String)) (hz spdxPath : String)
    (copyLic : String → String → String)
    (file_name source targetLocation : String)
    (outputRoot workspace : String) (fs : List (String × Json)) :
    Except Unit Json := do
      let firstTry ← extractFirstSelf (objLookup fs "links")
      let (doc1, selfLink) ← match firstTry with
        | some h => Except.ok ((Json.obj fs), h)
        | none => do
            let tempHref ← match pyUrljoinS source file_name with
              | some u => Except.ok u
              | none => Except.error ()
            let doc1 ← addLinkIfMissing "self" tempHref (.obj fs)
            let second ← extractFirstSelf (jGet doc1 "links")
            match second with
            | some h => Except.ok (doc1, h)
            | none => Except.error ()
      let outputSelf ← computeOutputSelf selfLink source targetLocation
      if lpIsValidUrl outputSelf = false then .ok doc1
      else do
        let doc2 ← addMissingLinks doc1 outputRoot outputSelf
        let doc3 ← ensureLicenseLinks spdx hz spdxPath copyLic workspace doc2
        rewriteLinks source targetLocation outputSelf outputRoot doc3

/-- `LinkProcessor.update_file` (link_processor.py lines 241-291).  Non-dict
payloads are returned unchanged (lines 247-249); for dict payloads
`delete_sections` drops `conformsTo` and the rest of the body runs as
`linkUpdateCore`. -/
def linkUpdateFile (spdx : List (String × String)) (hz spdxPath : String)
    (copyLic : String → String → String)
    (file_name source targetLocation : String) (entryBody : Json)
    (outputRoot workspace : String) : Except Unit Json :=
  match entryBody with
  | .obj fs0 =>
      linkUpdateCore spdx hz spdxPath copyLic file_name source targetLocation
        outputRoot workspace (eraseField fs0 "conformsTo")
  | other => .ok other

/-! ## transformer.py: `transform` -/

/-- The distinct ways `transform` (transformer.py lines 192-226) raises. -/
inductive TransformErr where
  | strGetAttrError : TransformErr
  | applyPatchCrash : TransformErr
  | urljoinValueError : TransformErr
  | catalogIdCrash : TransformErr
  | processorPhase : TransformErr
  deriving DecidableEq, Repr

/-- `transform` (transformer.py).  `patchData` models the result of
`get_patch_from_s3` (an S3 oracle).  Line 206 evaluates
`entry_body.get("type")` before any guard, so a non-dict payload (a plain
string, for instance) raises `AttributeError` immediately
(`strGetAttrError`).  For dict payloads the optional patch is applied and
the catalog id corrected; the processor phase (lines 220-224) then always
raises in this source snapshot: `LinkProcessor(workspace)` passes the
workspace string where the constructor expects an S3 client, and
`update_file` invokes `WorkflowProcessor.update_file` without its required
`file_json` argument (`TypeError`), so no input reaches a processor's body
through this entry point (`processorPhase`). -/
def transform (patchData : Option Json) (file_name : String)
    (entry_body : Json) (source target output_root workspace : String) :
    Except TransformErr Json :=
  match entry_body with
  | .obj fs => do
      let afterPatch ←
        if (objLookup fs "type").getD .null = .str "Collection" then
          match patchData with
          | some pd =>
              if truthy pd then
                match apply_patch entry_body pd with
                | some d => Except.ok d
                | none => Except.error TransformErr.applyPatchCrash
              else Except.ok entry_body
          | none => Except.ok entry_body
        else Except.ok entry_body
      let _targetLocation ← match pyUrljoinS output_root target with
        | some t => Except.ok t
        | none => Except.error TransformErr.urljoinValueError
      let _afterCatalog ←
        match afterPatch with
        | .obj _ =>
            match update_catalog_id afterPatch target with
            | .ok d => Except.ok d
            | .error _ => Except.error TransformErr.catalogIdCrash
        | other => Except.ok other
      Except.error TransformErr.processorPhase
  | _ => .error .strGetAttrError

/-! ## Concrete fixtures used by the claim theorems -/

/-- A flat link dict with a string rel and a string href. -/
def mkLink (rel href : String) : Json :=
  .obj [("rel", .str rel), ("href", .str href)]

/-- A list of flat links from rel/href pairs. -/
def mkLinks (ps : List (String × String)) : List Json :=
  ps.map (fun p => mkLink p.1 p.2)

/-- Whether a document's top-level links array holds a link with the given
relation. -/
def hasLinkWithRel (v : Json) (rel : String) : Bool :=
  match jGet v "links" with
  | some (.arr ls) => ls.any (fun l => decide (jGet l "rel" = some (.str rel)))
  | _ => false

/-- The identity licence-mirroring oracle (used where the licence branch is
not exercised). -/
def idCopyLic : String → String → String := fun _ href => href

/-- The CWL graph of the workflow-completion test: one Workflow node with
id `demo` and empty inputs/outputs. -/
def demoCwl : Json :=
  .obj [("$graph", .arr [.obj [("class", .str "Workflow"), ("id", .str "demo"),
    ("inputs", .obj []), ("outputs", .obj [])]])]

/-- A Collection document carrying only `assets.cwl_script.href`. -/
def c9Doc : Json :=
  .obj [("assets", .obj [("cwl_script", .obj [("href", .str "https://w/flow.cwl")])])]

end HarvestTransformer

namespace HarvestTransformer

/-! ## Helper lemmas -/

theorem objLookup_setFields_self (fs : List (String × Json)) (k : String)
    (v : Json) : objLookup (setFields fs k v) k = some v := by
  induction fs with
  | nil => simp [setFields, objLookup]
  | cons hd tl ih =>
      by_cases h : hd.1 = k
      · simp [setFields, h, objLookup]
      · simp [setFields, h, objLookup, ih]

theorem objLookup_setFields_ne (fs : List (String × Json)) (k k' : String)
    (v : Json) (h : k' ≠ k) :
    objLookup (setFields fs k v) k' = objLookup fs k' := by
  induction fs with
  | nil => simp [setFields, objLookup, Ne.symm h]
  | cons hd tl ih =>
      by_cases hk : hd.1 = k
      · subst hk
        simp [setFields, objLookup, h, Ne.symm h]
      · simp [setFields, hk, objLookup, ih]

theorem objLookup_eraseField_ne (fs : List (String × Json)) (k k' : String)
    (h : k' ≠ k) : objLookup (eraseField fs k) k' = objLookup fs k' := by
  induction fs with
  | nil => simp [eraseField, objLookup]
  | cons hd tl ih =>
      by_cases hk : hd.1 = k
      · subst hk
        simp [eraseField, objLookup, Ne.symm h, ih]
      · simp [eraseField, hk, objLookup, ih]

theorem setFields_eq_append (fs : List (String × Json)) (k : String) (v : Json)
    (h : objLookup fs k = none) : setFields fs k v = fs ++ [(k, v)] := by
  induction fs with
  | nil => simp [setFields]
  | cons hd tl ih =>
      by_cases hk : hd.1 = k
      · simp [objLookup, hk] at h
      · simp [objLookup, hk] at h
        simp [setFields, hk, ih h]

theorem pyStartswith_refl (s : List Char) : pyStartswith s s = true := by
  unfold pyStartswith
  induction s with
  | nil => rfl
  | cons c rest ih => simp [List.isPrefixOf, ih]

theorem pyStartswithS_refl (s : String) : pyStartswithS s s = true :=
  pyStartswith_refl s.data

/-- The empty-segment clause of `is_valid_path` is dead code: every path is
accepted. -/
theorem lpIsValidPath_always (p : List Char) : lpIsValidPath p = true := by
  unfold lpIsValidPath
  cases p with
  | nil => simp [pySplitChar]
  | cons c rest => simp

theorem isPrefixOf_append_self (l t : List Char) :
    l.isPrefixOf (l ++ t) = true := by
  induction l with
  | nil => simp [List.isPrefixOf]
  | cons c rest ih => simp [List.isPrefixOf, ih]

theorem pyEndswithS_append (s suf : String) :
    pyEndswithS (s ++ suf) suf = true := by
  unfold pyEndswithS pyEndswith
  rw [show (s ++ suf).data = s.data ++ suf.data from String.data_append s suf]
  unfold List.isSuffixOf
  rw [List.reverse_append]
  exact isPrefixOf_append_self _ _

@[simp] theorem exceptBind_ok {ε α β : Type} (a : α) (f : α → Except ε β) :
    (Except.ok a : Except ε α) >>= f = f a := rfl

@[simp] theorem exceptBind_err {ε α β : Type} (e : ε) (f : α → Except ε β) :
    (Except.error e : Except ε α) >>= f = Except.error e := rfl

theorem computeOutputSelf_str (u s t : String) :
    computeOutputSelf (.str u) s t =
      match replaceUrlLocation u s t with
      | some r => .ok r
      | none => .error () := by
  unfold computeOutputSelf replaceUrlLocation
  by_cases h : s = ""
  · simp [h]
  · simp [h]

/-! ## Claim theorems -/

/-- Claim C1 (code_bug): the main polling loop in src's `__main__.py`
acknowledges every message — also when processing raised (for instance a
transient `ClientError` from the object store) — and never issues a negative
acknowledgement, so no message is ever redelivered.  The repository's own
tests (tests/test_main.py) and the spec instead require temp-failed keys to
be classified and the message to be negatively acknowledged. -/
theorem C1_main_acknowledges_every_message :
    (∀ e : String, mainAckDecision (.error e) = .acknowledge) ∧
    (∀ r : Except String Unit, mainAckDecision r ≠ .negativeAcknowledge) := by
  refine ⟨fun _ => rfl, fun r => ?_⟩
  cases r <;> simp [mainAckDecision]

/-- Claim C2 (code_bug): a plain-string payload does not pass through
`transform` unchanged — line 206 evaluates `entry_body.get("type")` before
any dict guard, so the call raises `AttributeError` immediately; the
intended bypass exists only inside the individual processors
(`LinkProcessor.update_file` does return a non-dict payload unchanged). -/
theorem C2_transform_raises_on_string_payload :
    transform none "file.json" (Json.str "plain text payload")
        "https://s/" "target" "https://r/" "ws" = .error .strGetAttrError ∧
    linkUpdateFile [] "hz" "p" idCopyLic "file.json" "https://s/" "https://t/"
        (Json.str "plain text payload") "https://r/" "ws"
      = .ok (Json.str "plain text payload") := by
  exact ⟨rfl, rfl⟩

/-- Claim C9: for a workflow graph exposing id "demo" with empty
inputs/outputs and a document carrying only `assets.cwl_script.href`, the
synthesized collection has id `workflow__demo`, type `Collection`, the
default non-empty `extent.spatial.bbox`, and `summaries.inputs == {}`. -/
theorem C9_workflow_completion :
    ∃ r, workflowUpdateFile (fun _ => .parsed demoCwl) "u1" "u2"
        "wf.json" "https://s/" c9Doc = .ok r
      ∧ jGet r "id" = some (.str "workflow__demo")
      ∧ jGet r "type" = some (.str "Collection")
      ∧ ((jGet r "extent").bind (fun e => jGet e "spatial")).bind
          (fun sp => jGet sp "bbox") = some defaultBbox
      ∧ truthy defaultBbox = true
      ∧ ((jGet r "summaries").bind (fun sm => jGet sm "inputs"))
          = some (.obj []) := by
  refine ⟨Json.obj
    [("type", .str "Collection"), ("stac_version", .str "1.0.0"),
     ("stac_extensions", .arr []), ("id", .str "workflow__demo"),
     ("title", .str "workflow__demo"), ("description", .str "N/A"),
     ("keywords", .arr [.str "workflow"]), ("license", .str "N/A"),
     ("providers", .str "N/A"), ("extent", DEFAULT_EXTENT_FIELD),
     ("summaries", .obj [("inputs", .obj []), ("outputs", .obj [])]),
     ("links", .arr []),
     ("assets", .obj [("cwl_script", .obj [("href", .str "https://w/flow.cwl")])])],
    ?_, ?_, ?_, ?_, ?_, ?_⟩ <;> decide

theorem setFields_setFields (fs : List (String × Json)) (k : String)
    (v w : Json) : setFields (setFields fs k v) k w = setFields fs k w := by
  induction fs with
  | nil => simp [setFields]
  | cons hd tl ih =>
      by_cases h : hd.1 = k
      · simp [setFields, h]
      · simp [setFields, h, ih]

theorem findAllLinksFields_append (a b : List (String × Json)) :
    findAllLinksFields (a ++ b) =
      (do
        let x ← findAllLinksFields a
        let y ← findAllLinksFields b
        Except.ok (x ++ y)) := by
  induction a with
  | nil =>
      simp only [List.nil_append, findAllLinksFields, exceptBind_ok]
      cases findAllLinksFields b with
      | error e => rfl
      | ok y => rfl
  | cons hd tl ih =>
      cases hd with
      | mk k v =>
          simp only [List.cons_append, findAllLinksFields, List.append_eq]
          rw [ih]
          cases findAllLinksE v with
          | error e => rfl
          | ok x =>
              simp only [exceptBind_ok]
              cases findAllLinksFields tl with
              | error e => rfl
              | ok y =>
                  simp only [exceptBind_ok]
                  cases findAllLinksFields b with
                  | error e => rfl
                  | ok z => simp only [exceptBind_ok, List.append_assoc]

theorem findAllLinksE_mkLink (r h : String) :
    findAllLinksE (mkLink r h) = .ok [] := by
  simp [mkLink, findAllLinksE, findAllLinksFields, objLookup]

theorem findAllLinksList_mkLinks (ps : List (String × String)) :
    findAllLinksList (mkLinks ps) = .ok [] := by
  induction ps with
  | nil => simp [mkLinks, findAllLinksList]
  | cons p rest ih =>
      simp [mkLinks, findAllLinksList, findAllLinksE_mkLink] at ih ⊢
      simp [ih]

theorem mutateTree_mkLink (s t o r a b : String) :
    mutateTree s t o r (mkLink a b) = mkLink a b := by
  simp [mkLink, mutateTree, mutateFields]

theorem mem_mutateLinkElems_of_drop (s t o r : String)
    (ps : List (String × String)) (l : Json) (hl : l ∈ mkLinks ps)
    (hd : linkDecide s t o r l = .ok .drop) :
    l ∈ mutateLinkElems s t o r (mkLinks ps) := by
  induction ps with
  | nil => simp [mkLinks] at hl
  | cons p rest ih =>
      simp only [mkLinks, List.map_cons] at hl ⊢
      rcases List.mem_cons.mp hl with h1 | h1
      · subst h1
        simp only [mutateLinkElems, linkMutate, hd, mutateTree_mkLink]
        exact List.mem_cons_self _ _
      · simp only [mutateLinkElems]
        exact List.mem_cons_of_mem _ (ih h1)

/-- Claim C7 (amended): patch application never yields a partially patched
document — whenever `apply_patch` returns a document it is either the
untouched original (a `JsonPatchException` is caught and the intermediate
discarded wholesale) or the sequential application of the entire operation
list.  But the claim's "on any patch-application failure the original is
kept" is false: a non-`JsonPatchException` failure (for instance a
`jsonpointer.JsonPointerException` or a `TypeError`) escapes `apply_patch`
uncaught, and then no document at all is returned — not even the original
(see the counterexample). -/
theorem C7_apply_patch_atomic (doc : Json) (ops : List Json) (r : Json)
    (h : apply_patch doc (.arr ops) = some r) :
    r = doc ∨ jsonPatchApply doc ops = .ok r := by
  have h2 : (match jsonPatchApply doc ops with
      | Except.ok d => some d
      | Except.error PatchErrKind.patchExc => some doc
      | Except.error PatchErrKind.crash => none) = some r := h
  cases hj : jsonPatchApply doc ops with
  | ok d =>
      right
      rw [hj] at h2
      cases h2
      rfl
  | error e =>
      cases e with
      | patchExc =>
          left
          rw [hj] at h2
          cases h2
          rfl
      | crash =>
          rw [hj] at h2
          cases h2

/-- Claim C7 witness: a concrete one-operation patch on the empty document
is applied in full. -/
theorem C7_apply_patch_atomic_witness :
    apply_patch (Json.obj [])
        (.arr [Json.obj [("op", .str "add"), ("path", .str "/x"), ("value", .num 1)]])
      = some (Json.obj [("x", .num 1)]) ∧
    ((Json.obj [("x", .num 1)]) = Json.obj [] ∨
      jsonPatchApply (Json.obj [])
        [Json.obj [("op", .str "add"), ("path", .str "/x"), ("value", .num 1)]]
        = .ok (Json.obj [("x", .num 1)])) :=
  ⟨by decide, C7_apply_patch_atomic _ _ _ (by decide)⟩

/-- Claim C7 counterexample.  Patch-application failures that are not
`JsonPatchException`s escape `apply_patch` uncaught, so NO document — not
even the original — is returned: a `remove` whose pointer walks through a
missing container (`/a/b` on `{}`) raises `JsonPointerException`, as does a
path lacking its leading slash, and a string operation containing `op` as a
substring (such as `nop`) raises `TypeError` on the `operation` indexing.
Only failures like a string operation without `op` raise the caught
`InvalidJsonPatch`, keeping the original. -/
theorem C7_counterexample :
    apply_patch (Json.obj [])
        (.arr [Json.obj [("op", .str "remove"), ("path", .str "/a/b")]])
      = none ∧
    apply_patch (Json.obj [])
        (.arr [Json.obj [("op", .str "remove"), ("path", .str "a")]])
      = none ∧
    apply_patch (Json.obj []) (.arr [.str "nop"]) = none ∧
    apply_patch (Json.obj []) (.arr [.str "xyz"]) = some (Json.obj []) := by
  exact ⟨by decide, by decide, by decide, by decide⟩

/-- Claim C8 (amended): a link whose relation is REWRITE-class *other than
`parent`* and whose absolute href is rooted neither at the source, nor at
the output root (also after slash stripping), is dropped from the rewritten
links, and a link with the same href but a relation outside both the
rewrite and the remove lists is kept unchanged; but a `parent` link with
that same unrecognized absolute href is NOT dropped — it is kept with its
href rewritten to the head of `output_self.rsplit("/", 2)`. -/
theorem C8_drop_unrecognized_rewrite_keep_other
    (source tl os oroot hrefR relR relK : String) (pr : UrlParseResult)
    (hrw : relR ∈ relationsToRewrite)
    (hk1 : relK ∉ relationsToRewrite)
    (hk2 : relK ∉ relationsToRemove)
    (h1 : pyStartswithS hrefR oroot = false)
    (h2 : pyStartswithS hrefR source = false)
    (h3 : relR ≠ "parent")
    (h4 : pyStartswithS hrefR (pyStripSlashS oroot) = false)
    (h5 : pyUrlparseS hrefR = some pr)
    (h6 : ¬(pr.scheme = [] ∧ pr.netloc = [])) :
    rewriteLinks source tl os oroot
        (.obj [("links", .arr [mkLink relR hrefR, mkLink relK hrefR,
                               mkLink "parent" hrefR])])
      = .ok (.obj [("links", .arr [mkLink relK hrefR,
                     mkLink "parent" (pyRsplit2HeadS os '/')])]) := by
  have hdec1 : linkDecide source tl os oroot (mkLink relR hrefR) = .ok .drop := by
    simp [linkDecide, mkLink, objLookup, h1, h2, h3, h4, h5, h6, relInList, hrw]
  have hdec2 : linkDecide source tl os oroot (mkLink relK hrefR) = .ok .keepOrig := by
    simp [linkDecide, mkLink, objLookup, h1, h5, relInList, hk1, hk2]
  have hdec3 : linkDecide source tl os oroot (mkLink "parent" hrefR)
      = .ok (.keepHref (pyRsplit2HeadS os '/')) := by
    simp [linkDecide, mkLink, objLookup, h1, h2, h5, relInList,
      relationsToRewrite]
  have hmut1 : linkMutate source tl os oroot (mkLink relR hrefR)
      = mkLink relR hrefR := by
    simp [linkMutate, hdec1, mutateTree_mkLink]
  have hmut2 : linkMutate source tl os oroot (mkLink relK hrefR)
      = mkLink relK hrefR := by
    simp [linkMutate, hdec2, mutateTree_mkLink]
  have hmut3 : linkMutate source tl os oroot (mkLink "parent" hrefR)
      = mkLink "parent" (pyRsplit2HeadS os '/') := by
    simp only [linkMutate, hdec3, mutateTree_mkLink]
    simp [mkLink, setFields]
  have hfind : findAllLinksE
      (.obj [("links", .arr [mkLink relR hrefR, mkLink relK hrefR,
                             mkLink "parent" hrefR])])
      = .ok [mkLink relR hrefR, mkLink relK hrefR, mkLink "parent" hrefR] := by
    simp [findAllLinksE, findAllLinksList, findAllLinksFields, objLookup,
      linksElems, mkLink]
  simp [rewriteLinks, hfind, collectKept, hdec1, hdec2, hdec3, hmut1, hmut2,
    hmut3, mutateTree, mutateFields, mutateLinksVal, mutateLinkElems,
    setFields]

/-- Claim C8 witness: concrete instantiation with a `child`-relation, a
`cite-as`-relation and a `parent`-relation link sharing an external href:
the `child` link is dropped, the `cite-as` link kept unchanged and the
`parent` link kept with a rewritten href. -/
theorem C8_drop_unrecognized_rewrite_keep_other_witness :
    rewriteLinks "https://s/" "https://t/" "https://t/a/b" "https://r/"
        (.obj [("links", .arr [mkLink "child" "https://other.com/a",
                               mkLink "cite-as" "https://other.com/a",
                               mkLink "parent" "https://other.com/a"])])
      = .ok (.obj [("links", .arr [mkLink "cite-as" "https://other.com/a",
                     mkLink "parent" (pyRsplit2HeadS "https://t/a/b" '/')])]) := by
  refine C8_drop_unrecognized_rewrite_keep_other "https://s/" "https://t/"
    "https://t/a/b" "https://r/" "https://other.com/a" "child" "cite-as"
    (UrlParseResult.mk "https".data "other.com".data "/a".data [] [] [])
    (by decide) (by decide) (by decide) (by decide) (by decide) (by decide)
    (by decide) (by decide) (by decide)

/-- Claim C8 counterexample.  The claim lists `parent` among the
REWRITE-class relations and asserts such links are absent from the output,
but a `parent` link with an absolute href rooted neither at the source nor
at the output root is kept (with its href rewritten to the head of
`output_self.rsplit("/", 2)`), not dropped. -/
theorem C8_counterexample :
    "parent" ∈ relationsToRewrite ∧
    pyStartswithS "https://other.com/a" "https://s/" = false ∧
    pyStartswithS "https://other.com/a" "https://r/" = false ∧
    rewriteLinks "https://s/" "https://t/" "https://t/a/b" "https://r/"
        (.obj [("links", .arr [.obj [("rel", .str "parent"),
                                     ("href", .str "https://other.com/a")]])])
      = .ok (.obj [("links", .arr [.obj [("rel", .str "parent"),
                                         ("href", .str "https://t")]])]) ∧
    hasLinkWithRel (.obj [("links", .arr [.obj [("rel", .str "parent"),
        ("href", .str "https://t")]])]) "parent" = true := by
  refine ⟨by decide, by decide, by decide, ?_, by decide⟩
  have hd : linkDecide "https://s/" "https://t/" "https://t/a/b" "https://r/"
      (.obj [("rel", .str "parent"), ("href", .str "https://other.com/a")])
      = .ok (.keepHref "https://t") := by decide
  have hfind : findAllLinksE
      (.obj [("links", .arr [.obj [("rel", .str "parent"),
                                   ("href", .str "https://other.com/a")]])])
      = .ok [.obj [("rel", .str "parent"),
                   ("href", .str "https://other.com/a")]] := by
    simp [findAllLinksE, findAllLinksList, findAllLinksFields, objLookup,
      linksElems]
  simp [rewriteLinks, hfind, collectKept, hd, linkMutate, mutateTree,
    mutateFields, mutateLinksVal, mutateLinkElems, setFields, objLookup]

/-- Claim C5 counterexample: rewriting does not filter nested links arrays —
a DROP-class `search` link inside a nested object survives in place (only
its copy is omitted from the rebuilt top-level array), so not every links
array in the output is policy-compliant. -/
theorem C5_counterexample :
    rewriteLinks "https://s/" "https://t/" "https://t/x" "https://r/"
        (.obj [("links", .arr [.obj [("rel", .str "search"), ("href", .str "https://x.com/q1")]]),
               ("child", .obj [("links", .arr [.obj [("rel", .str "search"), ("href", .str "https://x.com/q2")]])])])
      = .ok (.obj [("links", .arr []),
                   ("child", .obj [("links",
                      .arr [.obj [("rel", .str "search"), ("href", .str "https://x.com/q2")]])])]) ∧
    linkDecide "https://s/" "https://t/" "https://t/x" "https://r/"
        (.obj [("rel", .str "search"), ("href", .str "https://x.com/q2")])
      = .ok .drop := by
  have hd1 : linkDecide "https://s/" "https://t/" "https://t/x" "https://r/"
      (.obj [("rel", .str "search"), ("href", .str "https://x.com/q1")])
      = .ok .drop := by decide
  have hd2 : linkDecide "https://s/" "https://t/" "https://t/x" "https://r/"
      (.obj [("rel", .str "search"), ("href", .str "https://x.com/q2")])
      = .ok .drop := by decide
  refine ⟨?_, hd2⟩
  have hfind : findAllLinksE
      (.obj [("links", .arr [.obj [("rel", .str "search"), ("href", .str "https://x.com/q1")]]),
             ("child", .obj [("links", .arr [.obj [("rel", .str "search"), ("href", .str "https://x.com/q2")]])])])
      = .ok [.obj [("rel", .str "search"), ("href", .str "https://x.com/q1")],
             .obj [("rel", .str "search"), ("href", .str "https://x.com/q2")]] := by
    simp [findAllLinksE, findAllLinksList, findAllLinksFields, objLookup,
      linksElems]
  simp [rewriteLinks, hfind, collectKept, hd1, hd2, mutateTree, mutateFields,
    mutateLinksVal, mutateLinkElems, linkMutate, setFields, objLookup]

/-- Claim C5 (amended): the rewrite policy produces the new top-level links
array — the policy-filtered, href-rewritten flattening of every links array
found at any depth — and mutates kept links in place; but nested links
arrays are never filtered: a DROP-class link in a nested array remains
there. -/
theorem C5_policy_applies_to_top_level_only
    (source tl os oroot : String) (top inner : List (String × String))
    (kept : List Json)
    (hkept : collectKept source tl os oroot (mkLinks top ++ mkLinks inner)
      = .ok kept) :
    rewriteLinks source tl os oroot
        (.obj [("links", .arr (mkLinks top)),
               ("child", .obj [("links", .arr (mkLinks inner))])])
      = .ok (.obj [("links", .arr kept),
                   ("child", .obj [("links",
                      .arr (mutateLinkElems source tl os oroot (mkLinks inner)))])])
    ∧ ∀ l ∈ mkLinks inner,
        linkDecide source tl os oroot l = .ok .drop →
          l ∈ mutateLinkElems source tl os oroot (mkLinks inner) := by
  constructor
  · have hfind : findAllLinksE
        (.obj [("links", .arr (mkLinks top)),
               ("child", .obj [("links", .arr (mkLinks inner))])])
        = .ok (mkLinks top ++ mkLinks inner) := by
      simp [findAllLinksE, findAllLinksList, findAllLinksFields, objLookup,
        linksElems, findAllLinksList_mkLinks]
    simp [rewriteLinks, hfind, hkept, mutateTree, mutateFields,
      mutateLinksVal, setFields]
  · intro l hl hd
    exact mem_mutateLinkElems_of_drop source tl os oroot inner l hl hd

/-- Claim C5 witness: the amended theorem applied at the counterexample's
concrete inputs. -/
theorem C5_policy_applies_to_top_level_only_witness :
    rewriteLinks "https://s/" "https://t/" "https://t/x" "https://r/"
        (.obj [("links", .arr (mkLinks [("search", "https://x.com/q1")])),
               ("child", .obj [("links",
                  .arr (mkLinks [("search", "https://x.com/q2")]))])])
      = .ok (.obj [("links", .arr []),
                   ("child", .obj [("links",
                      .arr (mutateLinkElems "https://s/" "https://t/" "https://t/x"
                        "https://r/" (mkLinks [("search", "https://x.com/q2")])))])]) :=
  (C5_policy_applies_to_top_level_only "https://s/" "https://t/" "https://t/x"
    "https://r/" [("search", "https://x.com/q1")] [("search", "https://x.com/q2")]
    [] (by decide)).1

/-- Claim C4 counterexample.  Part (a): a computed self URL with an empty
path segment (`https://a.com//b`) is not rejected by the validation (the
empty-segment clause of `is_valid_path` is dead code), so the rewrite is NOT
aborted and the link graph changes.  Part (b): when the input lacks a self
link and the computed URL is invalid, the returned document carries the
synthesized temporary self link, so its links differ from the input's. -/
theorem C4_counterexample :
    lpIsValidUrl "https://a.com//b" = true ∧
    linkUpdateFile [] "hz" "p" idCopyLic "f" "zzz" "ttt"
        (.obj [("conformsTo", .arr []),
               ("links", .arr [.obj [("rel", .str "self"), ("href", .str "https://a.com//b")],
                               .obj [("rel", .str "search"), ("href", .str "https://x.com/api")]])])
        "https://eodh.org/" "ws"
      = .ok (.obj [("links", .arr [.obj [("rel", .str "root"), ("href", .str "https://eodh.org/")]])]) ∧
    linkUpdateFile [] "hz" "p" idCopyLic "f" "" ""
        (.obj []) "r" "ws"
      = .ok (.obj [("links", .arr [.obj [("rel", .str "self"), ("href", .str "f")]])]) := by
  refine ⟨by decide, ?_, by decide⟩
  have hd1 : linkDecide "zzz" "ttt" "https://a.com//b" "https://eodh.org/"
      (.obj [("rel", .str "self"), ("href", .str "https://a.com//b")]) = .ok .drop := by decide
  have hd2 : linkDecide "zzz" "ttt" "https://a.com//b" "https://eodh.org/"
      (.obj [("rel", .str "search"), ("href", .str "https://x.com/api")]) = .ok .drop := by decide
  have hd3 : linkDecide "zzz" "ttt" "https://a.com//b" "https://eodh.org/"
      (.obj [("rel", .str "root"), ("href", .str "https://eodh.org/")]) = .ok .keepOrig := by decide
  have hfind : findAllLinksE
      (.obj [("links", .arr [.obj [("rel", .str "self"), ("href", .str "https://a.com//b")],
                             .obj [("rel", .str "search"), ("href", .str "https://x.com/api")],
                             .obj [("rel", .str "root"), ("href", .str "https://eodh.org/")]])])
      = .ok [.obj [("rel", .str "self"), ("href", .str "https://a.com//b")],
             .obj [("rel", .str "search"), ("href", .str "https://x.com/api")],
             .obj [("rel", .str "root"), ("href", .str "https://eodh.org/")]] := by
    simp [findAllLinksE, findAllLinksList, findAllLinksFields, objLookup, linksElems]
  have hrw : rewriteLinks "zzz" "ttt" "https://a.com//b" "https://eodh.org/"
      (.obj [("links", .arr [.obj [("rel", .str "self"), ("href", .str "https://a.com//b")],
                             .obj [("rel", .str "search"), ("href", .str "https://x.com/api")],
                             .obj [("rel", .str "root"), ("href", .str "https://eodh.org/")]])])
      = .ok (.obj [("links", .arr [.obj [("rel", .str "root"), ("href", .str "https://eodh.org/")]])]) := by
    simp [rewriteLinks, hfind, collectKept, hd1, hd2, hd3, mutateTree,
      mutateFields, mutateLinksVal, mutateLinkElems, linkMutate, setFields,
      objLookup]
  have hpre : extractFirstSelf (objLookup
      [("links", Json.arr [.obj [("rel", .str "self"), ("href", .str "https://a.com//b")],
                           .obj [("rel", .str "search"), ("href", .str "https://x.com/api")]])]
      "links")
      = .ok (some (.str "https://a.com//b")) := by decide
  have hos : computeOutputSelf (Json.str "https://a.com//b") "zzz" "ttt"
      = .ok "https://a.com//b" := by decide
  have hval : lpIsValidUrl "https://a.com//b" = true := by decide
  have hadd : addMissingLinks
      (.obj [("links", .arr [.obj [("rel", .str "self"), ("href", .str "https://a.com//b")],
                             .obj [("rel", .str "search"), ("href", .str "https://x.com/api")]])])
      "https://eodh.org/" "https://a.com//b"
      = .ok (.obj [("links", .arr [.obj [("rel", .str "self"), ("href", .str "https://a.com//b")],
                                   .obj [("rel", .str "search"), ("href", .str "https://x.com/api")],
                                   .obj [("rel", .str "root"), ("href", .str "https://eodh.org/")]])]) := by
    decide
  have hlic : ensureLicenseLinks [] "hz" "p" idCopyLic "ws"
      (.obj [("links", .arr [.obj [("rel", .str "self"), ("href", .str "https://a.com//b")],
                             .obj [("rel", .str "search"), ("href", .str "https://x.com/api")],
                             .obj [("rel", .str "root"), ("href", .str "https://eodh.org/")]])])
      = .ok (.obj [("links", .arr [.obj [("rel", .str "self"), ("href", .str "https://a.com//b")],
                                   .obj [("rel", .str "search"), ("href", .str "https://x.com/api")],
                                   .obj [("rel", .str "root"), ("href", .str "https://eodh.org/")]])]) := by
    decide
  simp [linkUpdateFile, linkUpdateCore, eraseField, hpre, hos, hval, hadd,
    hlic, hrw]

/-- Claim C4 (amended): the validation only requires scheme http/https and a
non-empty host — the path condition is vacuous (`is_valid_path` accepts
every path, see `lpIsValidPath_always`).  When the computed self URL fails
that check for a document that already has a self link, `update_file`
returns the document with only `conformsTo` removed: the link graph is
untouched.  (When the input had no self link, the synthesized temporary self
link remains in the returned document, as the counterexample shows.) -/
theorem C4_invalid_self_aborts_rewrite
    (spdx : List (String × String)) (hz sp : String)
    (cl : String → String → String) (fn source tl oroot ws os : String)
    (fs0 : List (String × Json)) (h : Json)
    (hself : extractFirstSelf (objLookup (eraseField fs0 "conformsTo") "links")
      = .ok (some h))
    (hos : computeOutputSelf h source tl = .ok os)
    (hinvalid : lpIsValidUrl os = false) :
    linkUpdateFile spdx hz sp cl fn source tl (.obj fs0) oroot ws
      = .ok (.obj (eraseField fs0 "conformsTo")) := by
  simp [linkUpdateFile, linkUpdateCore, hself, hos, hinvalid]

/-- Claim C4 witness: concrete abort — the self href `nota url` yields an
invalid computed URL and the document comes back with its links intact. -/
theorem C4_invalid_self_aborts_rewrite_witness :
    linkUpdateFile [] "hz" "p" idCopyLic "f" "s" "t"
        (.obj [("links", .arr [.obj [("rel", .str "self"), ("href", .str "nota url")]])])
        "r" "ws"
      = .ok (.obj [("links", .arr [.obj [("rel", .str "self"), ("href", .str "nota url")]])]) :=
  C4_invalid_self_aborts_rewrite [] "hz" "p" idCopyLic "f" "s" "t" "r" "ws"
    "nota url"
    [("links", .arr [.obj [("rel", .str "self"), ("href", .str "nota url")]])]
    (.str "nota url") (by decide) (by decide) (by decide)

/-- Deterministic walk of `linkUpdateCore` on a field list with no links
anywhere, no license field and a source-rooted synthesized temporary self
href that the rewrite policy keeps (rewriting it to the target location):
the result carries a links array holding exactly the rewritten self link
and the output-root root link. -/
theorem linkUpdateCore_adds_self_root
    (spdx : List (String × String)) (hz sp : String)
    (cl : String → String → String) (fn source tl oroot ws h0 os0 : String)
    (fsE : List (String × Json)) (pr : UrlParseResult)
    (hnolinks : objLookup fsE "links" = none)
    (hnolic : objLookup fsE "license" = none)
    (hflat : findAllLinksFields fsE = .ok [])
    (hjoin : pyUrljoinS source fn = some h0)
    (hrep : replaceUrlLocation h0 source tl = some os0)
    (hval : lpIsValidUrl os0 = true)
    (h7 : pyStartswithS h0 oroot = false)
    (h8 : pyStartswithS h0 source = true)
    (h9 : pyContainsS h0 tl = false)
    (hparse : pyUrlparseS h0 = some pr) :
    linkUpdateCore spdx hz sp cl fn source tl oroot ws fsE
      = .ok (.obj (setFields
          (mutateFields source tl os0 oroot
            (setFields fsE "links" (Json.arr
              [Json.obj [("rel", Json.str "self"), ("href", Json.str h0)],
               Json.obj [("rel", Json.str "root"), ("href", Json.str oroot)]])))
          "links"
          (Json.arr
            [Json.obj [("rel", Json.str "self"), ("href", Json.str os0)],
             Json.obj [("rel", Json.str "root"), ("href", Json.str oroot)]]))) := by
  have hx1 : extractFirstSelf (objLookup fsE "links") = Except.ok none := by
    simp [hnolinks, extractFirstSelf]
  have haddSelf : addLinkIfMissing "self" h0 (Json.obj fsE)
      = Except.ok (Json.obj (setFields fsE "links" (Json.arr
          [Json.obj [("rel", Json.str "self"), ("href", Json.str h0)]]))) := by
    simp [addLinkIfMissing, hnolinks]
  have hlk1 : objLookup (setFields fsE "links" (Json.arr
        [Json.obj [("rel", Json.str "self"), ("href", Json.str h0)]])) "links"
      = some (Json.arr
          [Json.obj [("rel", Json.str "self"), ("href", Json.str h0)]]) :=
    objLookup_setFields_self fsE "links" _
  have hx2 : extractFirstSelf (jGet (Json.obj (setFields fsE "links" (Json.arr
        [Json.obj [("rel", Json.str "self"), ("href", Json.str h0)]]))) "links")
      = Except.ok (some (Json.str h0)) := by
    simp [jGet, hlk1, extractFirstSelf, selfHrefScan, objLookup]
  have hosC : computeOutputSelf (Json.str h0) source tl = Except.ok os0 := by
    rw [computeOutputSelf_str, hrep]
  have hlk2 : objLookup (setFields fsE "links" (Json.arr
        [Json.obj [("rel", Json.str "self"), ("href", Json.str h0)],
         Json.obj [("rel", Json.str "root"), ("href", Json.str oroot)]])) "links"
      = some (Json.arr
          [Json.obj [("rel", Json.str "self"), ("href", Json.str h0)],
           Json.obj [("rel", Json.str "root"), ("href", Json.str oroot)]]) :=
    objLookup_setFields_self fsE "links" _
  have hhr : linksHasRel
      [Json.obj [("rel", Json.str "self"), ("href", Json.str h0)]] "root"
      = Except.ok false := by
    simp [linksHasRel, objLookup]
  have hhs : linksHasRel
      [Json.obj [("rel", Json.str "self"), ("href", Json.str h0)],
       Json.obj [("rel", Json.str "root"), ("href", Json.str oroot)]] "self"
      = Except.ok true := by
    simp [linksHasRel, objLookup]
  have haddMissing : addMissingLinks (Json.obj (setFields fsE "links" (Json.arr
        [Json.obj [("rel", Json.str "self"), ("href", Json.str h0)]]))) oroot os0
      = Except.ok (Json.obj (setFields fsE "links" (Json.arr
          [Json.obj [("rel", Json.str "self"), ("href", Json.str h0)],
           Json.obj [("rel", Json.str "root"), ("href", Json.str oroot)]]))) := by
    simp [addMissingLinks, addLinkIfMissing, hlk1, hhr, hhs, hlk2,
      setFields_setFields]
  have hlicNone : objLookup (setFields fsE "links" (Json.arr
        [Json.obj [("rel", Json.str "self"), ("href", Json.str h0)],
         Json.obj [("rel", Json.str "root"), ("href", Json.str oroot)]]))
      "license" = none := by
    rw [objLookup_setFields_ne _ _ _ _ (by decide)]
    exact hnolic
  have hlicStep : ensureLicenseLinks spdx hz sp cl ws
      (Json.obj (setFields fsE "links" (Json.arr
        [Json.obj [("rel", Json.str "self"), ("href", Json.str h0)],
         Json.obj [("rel", Json.str "root"), ("href", Json.str oroot)]])))
      = Except.ok (Json.obj (setFields fsE "links" (Json.arr
          [Json.obj [("rel", Json.str "self"), ("href", Json.str h0)],
           Json.obj [("rel", Json.str "root"), ("href", Json.str oroot)]]))) := by
    simp [ensureLicenseLinks, hlicNone, truthy]
  have hfsE2 : setFields fsE "links" (Json.arr
        [Json.obj [("rel", Json.str "self"), ("href", Json.str h0)],
         Json.obj [("rel", Json.str "root"), ("href", Json.str oroot)]])
      = fsE ++ [("links", Json.arr
          [Json.obj [("rel", Json.str "self"), ("href", Json.str h0)],
           Json.obj [("rel", Json.str "root"), ("href", Json.str oroot)]])] :=
    setFields_eq_append fsE "links" _ hnolinks
  have hselfNoLinks : findAllLinksE
      (Json.obj [("rel", Json.str "self"), ("href", Json.str h0)])
      = Except.ok [] := by
    simp [findAllLinksE, findAllLinksFields, objLookup]
  have hrootNoLinks : findAllLinksE
      (Json.obj [("rel", Json.str "root"), ("href", Json.str oroot)])
      = Except.ok [] := by
    simp [findAllLinksE, findAllLinksFields, objLookup]
  have hfindFields : findAllLinksFields (setFields fsE "links" (Json.arr
        [Json.obj [("rel", Json.str "self"), ("href", Json.str h0)],
         Json.obj [("rel", Json.str "root"), ("href", Json.str oroot)]]))
      = Except.ok [] := by
    rw [hfsE2, findAllLinksFields_append, hflat]
    simp [findAllLinksFields, findAllLinksE, findAllLinksList,
      hselfNoLinks, hrootNoLinks, objLookup, linksElems]
  have hfindAll : findAllLinksE (Json.obj (setFields fsE "links" (Json.arr
        [Json.obj [("rel", Json.str "self"), ("href", Json.str h0)],
         Json.obj [("rel", Json.str "root"), ("href", Json.str oroot)]])))
      = Except.ok
          [Json.obj [("rel", Json.str "self"), ("href", Json.str h0)],
           Json.obj [("rel", Json.str "root"), ("href", Json.str oroot)]] := by
    rw [show findAllLinksE (Json.obj (setFields fsE "links" (Json.arr
          [Json.obj [("rel", Json.str "self"), ("href", Json.str h0)],
           Json.obj [("rel", Json.str "root"), ("href", Json.str oroot)]]))) = (do
        let head ← match objLookup (setFields fsE "links" (Json.arr
            [Json.obj [("rel", Json.str "self"), ("href", Json.str h0)],
             Json.obj [("rel", Json.str "root"), ("href", Json.str oroot)]])) "links" with
          | some v => linksElems v
          | none => Except.ok []
        let rest ← findAllLinksFields (setFields fsE "links" (Json.arr
            [Json.obj [("rel", Json.str "self"), ("href", Json.str h0)],
             Json.obj [("rel", Json.str "root"), ("href", Json.str oroot)]]))
        Except.ok (head ++ rest)) from by simp [findAllLinksE]]
    rw [hlk2, hfindFields]
    simp [linksElems]
  have hdSelf : linkDecide source tl os0 oroot
      (Json.obj [("rel", Json.str "self"), ("href", Json.str h0)])
      = Except.ok (.keepHref os0) := by
    simp [linkDecide, objLookup, h7, h8, h9, hparse, hrep, relInList,
      relationsToRewrite, relationsToRemove]
  have hdRoot : linkDecide source tl os0 oroot
      (Json.obj [("rel", Json.str "root"), ("href", Json.str oroot)])
      = Except.ok .keepOrig := by
    simp [linkDecide, objLookup, pyStartswithS_refl]
  have hmutSelf : linkMutate source tl os0 oroot
      (Json.obj [("rel", Json.str "self"), ("href", Json.str h0)])
      = Json.obj [("rel", Json.str "self"), ("href", Json.str os0)] := by
    simp [linkMutate, hdSelf, mutateTree, mutateFields, setFields]
  have hmutRoot : linkMutate source tl os0 oroot
      (Json.obj [("rel", Json.str "root"), ("href", Json.str oroot)])
      = Json.obj [("rel", Json.str "root"), ("href", Json.str oroot)] := by
    simp [linkMutate, hdRoot, mutateTree, mutateFields]
  have hcollect : collectKept source tl os0 oroot
      [Json.obj [("rel", Json.str "self"), ("href", Json.str h0)],
       Json.obj [("rel", Json.str "root"), ("href", Json.str oroot)]]
      = Except.ok
          [Json.obj [("rel", Json.str "self"), ("href", Json.str os0)],
           Json.obj [("rel", Json.str "root"), ("href", Json.str oroot)]] := by
    simp [collectKept, hdSelf, hdRoot, hmutSelf, hmutRoot]
  have hrwStep : rewriteLinks source tl os0 oroot
      (Json.obj (setFields fsE "links" (Json.arr
        [Json.obj [("rel", Json.str "self"), ("href", Json.str h0)],
         Json.obj [("rel", Json.str "root"), ("href", Json.str oroot)]])))
      = Except.ok (Json.obj (setFields
          (mutateFields source tl os0 oroot (setFields fsE "links" (Json.arr
            [Json.obj [("rel", Json.str "self"), ("href", Json.str h0)],
             Json.obj [("rel", Json.str "root"), ("href", Json.str oroot)]])))
          "links" (Json.arr
            [Json.obj [("rel", Json.str "self"), ("href", Json.str os0)],
             Json.obj [("rel", Json.str "root"), ("href", Json.str oroot)]]))) := by
    simp [rewriteLinks, hfindAll, hcollect, mutateTree]
  simp [linkUpdateCore, hx1, hjoin, haddSelf, hx2, hosC, hval, haddMissing,
    hlicStep, hrwStep]

/-- Claim C6 (amended): for a document with no links anywhere, no license
field and no self/root link, provided the synthesized temporary self href is
rooted at `source` (so the rewrite policy rewrites it instead of dropping
it), does not contain the target location, is not already under the output
root, the computed output self URL passes validation and the output root is
itself a well-formed absolute URL — after `update_file` both a self link
(with the rewritten, valid href) and a root link (with the output root as
href) are present. -/
theorem C6_missing_links_added
    (spdx : List (String × String)) (hz sp : String)
    (cl : String → String → String) (fn source tl oroot ws h0 os0 : String)
    (fs : List (String × Json)) (pr : UrlParseResult)
    (hnolinks : objLookup (eraseField fs "conformsTo") "links" = none)
    (hnolic : objLookup (eraseField fs "conformsTo") "license" = none)
    (hflat : findAllLinksFields (eraseField fs "conformsTo") = .ok [])
    (hjoin : pyUrljoinS source fn = some h0)
    (hrep : replaceUrlLocation h0 source tl = some os0)
    (hval : lpIsValidUrl os0 = true)
    (hvalroot : lpIsValidUrl oroot = true)
    (h7 : pyStartswithS h0 oroot = false)
    (h8 : pyStartswithS h0 source = true)
    (h9 : pyContainsS h0 tl = false)
    (hparse : pyUrlparseS h0 = some pr) :
    ∃ r, linkUpdateFile spdx hz sp cl fn source tl (.obj fs) oroot ws = .ok r
      ∧ jGet r "links" = some (.arr
          [.obj [("rel", .str "self"), ("href", .str os0)],
           .obj [("rel", .str "root"), ("href", .str oroot)]])
      ∧ lpIsValidUrl os0 = true ∧ lpIsValidUrl oroot = true := by
  have hr := linkUpdateCore_adds_self_root spdx hz sp cl fn source tl oroot ws
    h0 os0 (eraseField fs "conformsTo") pr hnolinks hnolic hflat hjoin hrep
    hval h7 h8 h9 hparse
  exact ⟨_, hr, by simp [jGet, objLookup_setFields_self], hval, hvalroot⟩

/-- Claim C6 witness: the amended theorem at concrete inputs — a document
with only a `title`, source-rooted temporary self href, valid rewritten URL
and valid output root. -/
theorem C6_missing_links_added_witness :
    ∃ r, linkUpdateFile [] "hz" "p" idCopyLic "a/b" "https://s/"
        "https://t.com/" (.obj [("title", .str "t")]) "https://r.com/" "ws"
        = .ok r
      ∧ jGet r "links" = some (.arr
          [.obj [("rel", .str "self"), ("href", .str "https://t.com/a/b")],
           .obj [("rel", .str "root"), ("href", .str "https://r.com/")]])
      ∧ lpIsValidUrl "https://t.com/a/b" = true
      ∧ lpIsValidUrl "https://r.com/" = true :=
  C6_missing_links_added [] "hz" "p" idCopyLic "a/b" "https://s/"
    "https://t.com/" "https://r.com/" "ws" "https://s/a/b" "https://t.com/a/b"
    [("title", .str "t")]
    (UrlParseResult.mk "https".data "s".data "/a/b".data [] [] [])
    (by decide) (by decide) (by simp [findAllLinksFields, findAllLinksE, eraseField])
    (by decide) (by decide) (by decide) (by decide) (by decide) (by decide)
    (by decide) (by decide)

/-- Claim C6 counterexample.  A document lacking both links is given a
temporary self link whose href (`urljoin` of source and an absolute-URL file
name) is rooted neither at the source nor at the output root; the rewrite
DROPS it, so no self link is present afterwards.  And when the output root
is not itself a URL, the added root link's href is not a well-formed
absolute URL. -/
theorem C6_counterexample :
    linkUpdateFile [] "hz" "p" idCopyLic "https://other.com/f"
        "https://src.com/" "https://t.com" (.obj []) "https://eodh.org/" "ws"
      = .ok (.obj [("links", .arr [.obj [("rel", .str "root"), ("href", .str "https://eodh.org/")]])]) ∧
    hasLinkWithRel (.obj [("links", .arr [.obj [("rel", .str "root"), ("href", .str "https://eodh.org/")]])]) "self" = false ∧
    linkUpdateFile [] "hz" "p" idCopyLic "https://other.com/f"
        "https://src.com/" "https://t.com" (.obj []) "not-a-url" "ws"
      = .ok (.obj [("links", .arr [.obj [("rel", .str "root"), ("href", .str "not-a-url")]])]) ∧
    lpIsValidUrl "not-a-url" = false := by
  have main : ∀ oroot : String,
      pyStartswithS "https://other.com/f" oroot = false →
      pyStartswithS "https://other.com/f" (pyStripSlashS oroot) = false →
      linkUpdateFile [] "hz" "p" idCopyLic "https://other.com/f"
        "https://src.com/" "https://t.com" (.obj []) oroot "ws"
      = .ok (.obj [("links", .arr [.obj [("rel", .str "root"), ("href", .str oroot)]])]) := by
    intro oroot ho1 ho2
    have hd1 : linkDecide "https://src.com/" "https://t.com"
        "https://other.com/f" oroot
        (.obj [("rel", .str "self"), ("href", .str "https://other.com/f")])
        = .ok .drop := by
      simp [linkDecide, objLookup, ho1, ho2, relInList,
        relationsToRewrite, relationsToRemove]
      decide
    have hd2 : linkDecide "https://src.com/" "https://t.com"
        "https://other.com/f" oroot
        (.obj [("rel", .str "root"), ("href", .str oroot)]) = .ok .keepOrig := by
      simp [linkDecide, objLookup, pyStartswithS_refl]
    have hfind : findAllLinksE
        (.obj [("links", .arr [.obj [("rel", .str "self"), ("href", .str "https://other.com/f")],
                               .obj [("rel", .str "root"), ("href", .str oroot)]])])
        = .ok [.obj [("rel", .str "self"), ("href", .str "https://other.com/f")],
               .obj [("rel", .str "root"), ("href", .str oroot)]] := by
      simp [findAllLinksE, findAllLinksList, findAllLinksFields, objLookup,
        linksElems]
    have hrw : rewriteLinks "https://src.com/" "https://t.com"
        "https://other.com/f" oroot
        (.obj [("links", .arr [.obj [("rel", .str "self"), ("href", .str "https://other.com/f")],
                               .obj [("rel", .str "root"), ("href", .str oroot)]])])
        = .ok (.obj [("links", .arr [.obj [("rel", .str "root"), ("href", .str oroot)]])]) := by
      simp [rewriteLinks, hfind, collectKept, hd1, hd2, mutateTree,
        mutateFields, mutateLinksVal, mutateLinkElems, linkMutate, setFields,
        objLookup]
    have hadd : addMissingLinks
        (.obj [("links", .arr [.obj [("rel", .str "self"), ("href", .str "https://other.com/f")]])])
        oroot "https://other.com/f"
        = .ok (.obj [("links", .arr [.obj [("rel", .str "self"), ("href", .str "https://other.com/f")],
                                     .obj [("rel", .str "root"), ("href", .str oroot)]])]) := by
      simp [addMissingLinks, addLinkIfMissing, objLookup, linksHasRel, setFields]
    have hlic : ensureLicenseLinks [] "hz" "p" idCopyLic "ws"
        (.obj [("links", .arr [.obj [("rel", .str "self"), ("href", .str "https://other.com/f")],
                               .obj [("rel", .str "root"), ("href", .str oroot)]])])
        = .ok (.obj [("links", .arr [.obj [("rel", .str "self"), ("href", .str "https://other.com/f")],
                                     .obj [("rel", .str "root"), ("href", .str oroot)]])]) := by
      simp [ensureLicenseLinks, objLookup, truthy]
    have hjoin0 : pyUrljoinS "https://src.com/" "https://other.com/f"
        = some "https://other.com/f" := by decide
    have hcos0 : computeOutputSelf (.str "https://other.com/f")
        "https://src.com/" "https://t.com" = .ok "https://other.com/f" := by
      decide
    have hval0 : lpIsValidUrl "https://other.com/f" = true := by decide
    simp [linkUpdateFile, linkUpdateCore, eraseField, extractFirstSelf,
      objLookup, addLinkIfMissing, setFields, selfHrefScan, hjoin0, hcos0,
      hval0, jGet, hadd, hlic, hrw]
  exact ⟨main "https://eodh.org/" (by decide) (by decide), by decide,
    main "not-a-url" (by decide) (by decide), by decide⟩

/-- Claim C3 counterexample: a document with inline content (a `title`)
whose CWL script fails to YAML-parse makes `update_file` return Python
`None` (`Json.null`) — the pre-existing field is not preserved; the same
happens when the parsed graph contains no Workflow node. -/
theorem C3_counterexample :
    workflowUpdateFile (fun _ => .parserError) "u1" "u2" "wf.json" "https://s/"
        (.obj [("assets", .obj [("cwl_script", .obj [("href", .str "c.cwl")])]),
               ("title", .str "keepme")]) = .ok Json.null ∧
    workflowUpdateFile (fun _ => .parsed (.obj [("$graph", .arr [])])) "u1" "u2"
        "wf.json" "https://s/"
        (.obj [("assets", .obj [("cwl_script", .obj [("href", .str "c.cwl")])]),
               ("title", .str "keepme")]) = .ok Json.null ∧
    jGet Json.null "title" = none := by
  exact ⟨by decide, by decide, rfl⟩

/-- Claim C3 (amended): when the fetched workflow definition fails to parse,
or parses into a graph without a Workflow node, `update_file` returns Python
`None` — the entry is not synthesized and its inline fields are NOT
preserved; the document is discarded (only the fetch-failure path keeps the
document and completes it from defaults). -/
theorem C3_parse_failure_discards_entry
    (oracle : String → CwlFetch) (uuid1 uuid2 fn src h : String) (g : Json)
    (fs assetsFs csFs : List (String × Json)) (mf : List String)
    (hassets : objLookup fs "assets" = some (.obj assetsFs))
    (hcs : objLookup assetsFs "cwl_script" = some (.obj csFs))
    (hhref : objLookup csFs "href" = some (.str h))
    (hmf : workflowCheckMissingFields fs = .ok mf)
    (hor : oracle h = .parserError ∨
      (oracle h = .parsed g ∧ findWorkflowNode g = none)) :
    workflowUpdateFile oracle uuid1 uuid2 fn src (.obj fs) = .ok Json.null := by
  unfold workflowUpdateFile
  simp only [pyInJ, pyIndexJ, hassets, hcs, hhref, Option.isSome_some,
    exceptBind_ok]
  rcases hor with h1 | ⟨h1, h2⟩
  · simp [h1]
  · simp [h1, h2, hmf]

/-- Claim C3 witness: the amended theorem applied at a concrete document
whose CWL script fails to parse. -/
theorem C3_parse_failure_discards_entry_witness :
    workflowUpdateFile (fun _ => .parserError) "w1" "w2" "a.json" "https://s/"
      (.obj [("assets", .obj [("cwl_script", .obj [("href", .str "c.cwl")])]),
             ("title", .str "keepme")]) = .ok Json.null :=
  C3_parse_failure_discards_entry (fun _ => .parserError) "w1" "w2" "a.json"
    "https://s/" "c.cwl" Json.null
    [("assets", .obj [("cwl_script", .obj [("href", .str "c.cwl")])]),
     ("title", .str "keepme")]
    [("cwl_script", .obj [("href", .str "c.cwl")])]
    [("href", .str "c.cwl")]
    ["type", "stac_version", "stac_extensions", "id", "description",
     "keywords", "license", "providers", "extent", "summaries", "links"]
    (by decide) (by decide) (by decide) (by decide) (Or.inl rfl)

/-- Claim C10 counterexample: the `/items` removal is a substring replace,
not a segment strip — on this key it removes text that was not an `/items`
segment and the transformed key ends up containing an `/items` segment. -/
theorem C10_counterexample :
    transform_key "git-harvester/a/ite/itemsms/b" "/" "/" = "a/items/b.json" ∧
    pyContainsS "a/items/b.json" "/items" = true := by
  exact ⟨by decide, by decide⟩

/-- Claim C10 (amended): the concrete equation holds,
`transform_key("git-harvester/a/b/collections/c","/","/") = "a/b/c.json"`,
every transformed key ends with `.json` (hence has no trailing slash), and a
key under the source prefix maps to the target-prefixed relative path with
`.json` appended; but the `/items` and `/collections` removals are
single-pass substring replaces rather than segment strips (see the
counterexample). -/
theorem C10_transform_key_amended :
    transform_key "git-harvester/a/b/collections/c" "/" "/" = "a/b/c.json" ∧
    transform_key "https://src/x/y" "https://src/" "https://dst/"
        = "https://dst/x/y.json" ∧
    ∀ (k s t : String), pyEndswithS (transform_key k s t) ".json" = true := by
  refine ⟨by decide, by decide, fun k s t => ?_⟩
  unfold transform_key reformat_key
  set k3 := (fun k2 => if pyEndswithS k2 "/" then (⟨k2.data.dropLast⟩ : String) else k2)
    (pyReplaceAllS (pyReplaceAllS
      (if pyReplaceFirstS k "git-harvester/" "" = k then pyReplaceFirstS k s t
       else pyReplaceFirstS k "git-harvester/" "") "/items" "") "/collections" "") with hk3
  by_cases h : pyEndswithS k3 ".json" = true
  · simp [h]
  · simp only [Bool.not_eq_true] at h
    simp [h, pyEndswithS_append]

end HarvestTransformer
